import Mathlib

/-!
Shallow embedding of the DESI nightly job-dependency orchestrator
(`desispec.workflow.procfuncs` and `desispec.scripts.submit_night`).

Processing-table rows (`PRow`) and exposure-table rows (`ERow`) are modelled
as records with the logical columns the orchestrator reads and writes.
Python `None` is modelled by `Option`; astropy table rows have value
semantics on `add_row`, matching Lean's pure values.  External effects
(Slurm submission, table writes, sleeps) are modelled by explicit state
passing through `SubmitState`, whose `nextQid` counter stands for the
externally issued queue ids (the code obtains them from `sbatch` or, in a
dry run, from the wall clock; either way each submission yields a fresh
id).  Functions that can raise a Python exception return `Option`.

The repository snapshot contains two generations of the interfaces between
`submit_night.py` and `procfuncs.py`; calls from `submit_night` to the
helpers are resolved against the helper definitions present in the tree,
matching arguments by role.  Helpers imported from modules absent from the
tree (`desispec.workflow.queue`, `desispec.workflow.proctable`,
`desispec.workflow.desi_proc_funcs`) are modelled from the specification
and carry a doc comment saying so.
-/

/-- A queue id as stored in table columns: Python `None` or an integer. -/
abbrev QId := Option ℤ

/-- Processing-table row (a JobRecord): the logical columns of
`desispec.workflow.proctable` that the orchestrator reads or writes. -/
structure PRow where
  intid : ℤ
  expid : List ℤ
  tileid : ℤ
  obstype : String
  jobdesc : String
  status : String
  latest_qid : QId
  all_qids : List ℤ
  int_dep_ids : Option (List ℤ)
  latest_dep_qid : Option (List QId)
  calibrator : ℤ
  scriptname : String
  obsdesc : String
  laststep : String
  night : ℤ
  camword : String
  submit_date : ℤ
  deriving Repr, DecidableEq

/-- Exposure-table row: the columns of `desispec.workflow.exptable` that the
orchestrator reads. -/
structure ERow where
  expid : ℤ
  obstype : String
  tileid : ℤ
  exptime : ℤ
  seqnum : ℤ
  seqtot : ℤ
  laststep : String
  obsdesc : String
  night : ℤ
  camword : String
  deriving Repr, DecidableEq

/-- One externally visible action of the orchestrator. -/
inductive Event where
  /-- A batch submission: the submitted row's internal id, job description,
  the dependency string passed to the scheduler, and the issued queue id. -/
  | submit (intid : ℤ) (jobdesc : String) (dep_str : String) (qid : ℤ)
  /-- A durable write of the unprocessed-exposure table. -/
  | writeUnproc
  /-- A durable write of the processing table. -/
  | writeProc
  deriving Repr, DecidableEq

/-- External-interaction state threaded through the embedding: the supply of
fresh queue ids and the trace of externally visible actions. -/
structure SubmitState where
  nextQid : ℤ
  events : List Event
  deriving Repr, DecidableEq

/-- `night_to_starting_iid` (procfuncs.py): internal id base for a night,
`(night - 20000000) * 1000`. -/
def night_to_starting_iid (night : ℤ) : ℤ :=
  (night - 20000000) * 1000

/-- Modelled from the spec: `CreateScript` is deterministic, derivable from
the job's night, exposures, job description and camera set
(`get_desi_proc_batch_file_pathname` lives in
`desispec.workflow.desi_proc_funcs`, which is not in the tree). -/
def batch_script_name (prow : PRow) : String :=
  "proc-" ++ toString prow.night ++ "-" ++ toString prow.expid ++ "-"
    ++ prow.jobdesc ++ "-" ++ prow.camword ++ ".slurm"

/-- The dependency condition chosen in `submit_batch_script`
(procfuncs.py lines 234-241): `afterok` when the caller requests strictly
successful mode or the job type is flat, nightlyflat or poststdstar;
`afterany` otherwise. -/
def submit_depcond (strictly_successful : Bool) (jobtype : String) : String :=
  if strictly_successful then "afterok"
  else if jobtype = "flat" ∨ jobtype = "nightlyflat" ∨ jobtype = "poststdstar" then "afterok"
  else "afterany"

/-- String form of a queue id cell, as Python `str` renders it. -/
def qidStr (q : QId) : String :=
  match q with
  | none => "None"
  | some z => toString z

/-- Colon-joined list, as `':'.flatten(...)`. -/
def joinColon : List String → String
  | [] => ""
  | [s] => s
  | s :: rest => s ++ ":" ++ joinColon rest

/-- The dependency expression built in `submit_batch_script`
(procfuncs.py lines 230-258).  The `LATEST_DEP_QID` cell is always a list
or `None` in the orchestrator (so the `np.isscalar` branch of the source is
never taken); with more than one entry all entries are joined, with exactly
one entry it is attached unless it is `None` or `0`, and with no entries no
dependency expression is attached. -/
def submit_dep_str (prow : PRow) (strictly_successful : Bool) : String :=
  match prow.latest_dep_qid with
  | none => ""
  | some deps =>
    let depcond := submit_depcond strictly_successful prow.jobdesc
    let dep_str := "--dependency=" ++ depcond ++ ":"
    if deps.length > 1 then
      dep_str ++ joinColon (deps.map qidStr)
    else if deps.length = 1 ∧ deps.head? ≠ some none ∧ deps.head? ≠ some (some 0) then
      dep_str ++ qidStr (deps.headD none)
    else
      ""

/-- `submit_batch_script` (procfuncs.py): builds the dependency string,
obtains a fresh queue id (dry run: from the clock; live: from `sbatch`;
modelled by the `nextQid` supply), records the submission, and updates the
row's `LATEST_QID`, `ALL_QIDS`, `STATUS` and `SUBMIT_DATE`. -/
def submit_batch_script (st : SubmitState) (prow : PRow)
    (strictly_successful : Bool := false) : SubmitState × PRow :=
  let dep_str := submit_dep_str prow strictly_successful
  let current_qid := st.nextQid
  let st' : SubmitState :=
    { nextQid := st.nextQid + 1
      events := st.events ++ [Event.submit prow.intid prow.jobdesc dep_str current_qid] }
  let prow' : PRow :=
    { prow with
      latest_qid := some current_qid
      all_qids := prow.all_qids ++ [current_qid]
      status := "SU"
      submit_date := current_qid }
  (st', prow')

/-- `create_batch_script` (procfuncs.py): writes the batch script (an
external effect with no bearing on orchestration state) and records its
basename in `SCRIPTNAME`. -/
def create_batch_script (prow : PRow) : PRow :=
  { prow with scriptname := batch_script_name prow }

/-- `create_and_submit` (procfuncs.py): `create_batch_script` followed by
`submit_batch_script`. -/
def create_and_submit (st : SubmitState) (prow : PRow)
    (strictly_successful : Bool := false) : SubmitState × PRow :=
  submit_batch_script st (create_batch_script prow) strictly_successful

/-- The `dependency` argument of `assign_dependency`: Python `None`, a
single row, or a list of rows. -/
inductive Dependency where
  | noDep
  | single (r : PRow)
  | many (rs : List PRow)
  deriving Repr, DecidableEq

/-- `assign_dependency` (procfuncs.py lines 348-359): writes `INT_DEP_IDS`
and `LATEST_DEP_QID` from the dependency's `INTID`/`LATEST_QID`; with no
dependency the row is returned unchanged. -/
def assign_dependency (prow : PRow) (dependency : Dependency) : PRow :=
  match dependency with
  | Dependency.noDep => prow
  | Dependency.many rs =>
      { prow with
        int_dep_ids := some (rs.map (fun r => r.intid))
        latest_dep_qid := some (rs.map (fun r => r.latest_qid)) }
  | Dependency.single r =>
      { prow with
        int_dep_ids := some [r.intid]
        latest_dep_qid := some [r.latest_qid] }

/-- Lift a possibly absent row to a `Dependency`. -/
def optDep (r : Option PRow) : Dependency :=
  match r with
  | none => Dependency.noDep
  | some row => Dependency.single row

/-- `define_and_assign_dependency` (procfuncs.py lines 289-324): sets
`JOBDESC` from `OBSTYPE`, rewrites it to `prestdstar` for obstypes
`science` and `twiflat` (depending on the nightlyflat job when present),
makes `flat` depend on the psfnight job when present, and assigns no
dependency otherwise. -/
def define_and_assign_dependency (prow : PRow) (arcjob flatjob : Option PRow) : PRow :=
  let prow := { prow with jobdesc := prow.obstype }
  if prow.obstype = "science" ∨ prow.obstype = "twiflat" then
    assign_dependency { prow with jobdesc := "prestdstar" } (optDep flatjob)
  else if prow.obstype = "flat" then
    assign_dependency prow (optDep arcjob)
  else
    assign_dependency prow Dependency.noDep

/-- Python `str.lower` restricted to ASCII, as applied to obstype and
laststep values; written as an explicit character table so that it
evaluates inside the kernel. -/
def lowerChar (c : Char) : Char :=
  if c = 'A' then 'a' else
  if c = 'B' then 'b' else
  if c = 'C' then 'c' else
  if c = 'D' then 'd' else
  if c = 'E' then 'e' else
  if c = 'F' then 'f' else
  if c = 'G' then 'g' else
  if c = 'H' then 'h' else
  if c = 'I' then 'i' else
  if c = 'J' then 'j' else
  if c = 'K' then 'k' else
  if c = 'L' then 'l' else
  if c = 'M' then 'm' else
  if c = 'N' then 'n' else
  if c = 'O' then 'o' else
  if c = 'P' then 'p' else
  if c = 'Q' then 'q' else
  if c = 'R' then 'r' else
  if c = 'S' then 's' else
  if c = 'T' then 't' else
  if c = 'U' then 'u' else
  if c = 'V' then 'v' else
  if c = 'W' then 'w' else
  if c = 'X' then 'x' else
  if c = 'Y' then 'y' else
  if c = 'Z' then 'z' else
  c

/-- Python `str.lower()` on a string. -/
def strLower (s : String) : String := String.mk (s.data.map lowerChar)

/-- `get_type_and_tile` (procfuncs.py): the lowercased obstype and the tile
id of an exposure row. -/
def get_type_and_tile (erow : ERow) : String × ℤ :=
  (strLower erow.obstype, erow.tileid)

/-- The duck-typed `get_type_and_tile` applied to a processing-table row
(`parse_previous_tables` calls it on `ptable[-1]`). -/
def prow_type_and_tile (prow : PRow) : String × ℤ :=
  (strLower prow.obstype, prow.tileid)

/-- The unique exposure row selected by `etable[etable['EXPID']==e0]`
followed by an `int(...)` cast of one of its cells: the cast succeeds only
when the selection has exactly one row. -/
def lookupERow (etable : List ERow) (e0 : ℤ) : Option ERow :=
  match etable.filter (fun er => er.expid = e0) with
  | [er] => some er
  | _ => none

/-- The backward scan over trailing arc jobs in `parse_previous_tables`
(procfuncs.py lines 426-434): walk the reversed processing table, keeping
arc rows while their exposure's `SEQNUM` strictly decreases (seed 10), and
stop at the first row that breaks the run. -/
def scan_arcs (etable : List ERow) : List PRow → ℤ → Option (List PRow)
  | [], _ => some []
  | row :: rest, seqnum =>
    match row.expid.head? with
    | none => none
    | some e0 =>
      if strLower row.obstype = "arc" then
        match lookupERow etable e0 with
        | none => none
        | some er =>
          if er.seqnum < seqnum then
            (scan_arcs etable rest er.seqnum).map (fun tl => row :: tl)
          else
            some []
      else
        some []

/-- The backward scan over trailing flat jobs in `parse_previous_tables`
(procfuncs.py lines 439-445): keep flat rows whose exposure's `SEQTOT` is
below 5, and stop at the first row that breaks the run. -/
def scan_flats (etable : List ERow) : List PRow → Option (List PRow)
  | [] => some []
  | row :: rest =>
    match row.expid.head? with
    | none => none
    | some e0 =>
      if strLower row.obstype = "flat" then
        match lookupERow etable e0 with
        | none => none
        | some er =>
          if er.seqtot < 5 then
            (scan_flats etable rest).map (fun tl => row :: tl)
          else
            some []
      else
        some []

/-- The backward scan over trailing prestdstar science jobs on the current
tile in `parse_previous_tables` (procfuncs.py lines 447-453). -/
def scan_sciences (lasttile : ℤ) : List PRow → List PRow
  | [] => []
  | row :: rest =>
    if strLower row.obstype = "science" ∧ row.tileid = lasttile ∧
       row.jobdesc = "prestdstar" ∧ row.obsdesc ≠ "dither" then
      row :: scan_sciences lasttile rest
    else
      []

/-- The working-memory state reconstructed by `parse_previous_tables`. -/
structure ParsedState where
  arcs : List PRow
  flats : List PRow
  sciences : List PRow
  arcjob : Option PRow
  flatjob : Option PRow
  curtype : Option String
  lasttype : Option String
  curtile : Option ℤ
  lasttile : Option ℤ
  internal_id : ℤ
  last_not_dither : Bool
  deriving Repr, DecidableEq

/-- `parse_previous_tables` (procfuncs.py lines 378-462): regenerate the
daily-processing working state from the exposure and processing tables.
On an empty processing table everything is empty or unset and the internal
id counter starts from the night-derived base; otherwise the open arc,
flat and science runs are reconstructed by backward scans, and the
psfnight/nightlyflat rows are looked up when present.  The routine only
reads its inputs. -/
def parse_previous_tables (etable : List ERow) (ptable : List PRow) (night : ℤ) :
    Option ParsedState :=
  match ptable.getLast? with
  | none =>
    some { arcs := [], flats := [], sciences := []
           arcjob := none, flatjob := none
           curtype := none, lasttype := none, curtile := none, lasttile := none
           internal_id := night_to_starting_iid night, last_not_dither := true }
  | some prow =>
    let internal_id := prow.intid + 1
    let lt := prow_type_and_tile prow
    let lasttype := lt.1
    let lasttile := lt.2
    let last_not_dither := prow.obsdesc ≠ "dither"
    let jobtypes := ptable.map (fun r => r.jobdesc)
    let arcPart : Option (Option PRow × List PRow) :=
      if "psfnight" ∈ jobtypes then
        some ((ptable.filter (fun r => r.jobdesc = "psfnight")).head?, [])
      else if lasttype = "arc" then
        (scan_arcs etable ptable.reverse 10).map (fun a => (none, a))
      else
        some (none, [])
    let flatPart : Option (Option PRow × List PRow) :=
      if "nightlyflat" ∈ jobtypes then
        some ((ptable.filter (fun r => r.jobdesc = "nightlyflat")).head?, [])
      else if lasttype = "flat" then
        (scan_flats etable ptable.reverse).map (fun f => (none, f))
      else
        some (none, [])
    let sciences :=
      if lasttype = "science" then scan_sciences lasttile ptable.reverse else []
    match arcPart, flatPart with
    | some aPair, some fPair =>
      some { arcs := aPair.2, flats := fPair.2, sciences := sciences
             arcjob := aPair.1, flatjob := fPair.1
             curtype := none, lasttype := some lasttype
             curtile := none, lasttile := some lasttile
             internal_id := internal_id, last_not_dither := last_not_dither }
    | _, _ => none

/-- Modelled from the spec: `get_resubmission_states`
(`desispec.workflow.queue`, not in the tree) returns the configurable set
of resubmit-eligible terminal failure states, e.g. timeout, node failure,
cancelled. -/
def get_resubmission_states : List String :=
  ["TIMEOUT", "NODE_FAIL", "OUT_OF_MEMORY", "CANCELLED", "DEADLINE"]

/-- Modelled from the spec: `update_from_queue`
(`desispec.workflow.queue`, not in the tree) refreshes every tracked job's
status from the external queue; the snapshot maps a queue id to the status
the queue reports for it, when any. -/
def refresh_row (snap : ℤ → Option String) (r : PRow) : PRow :=
  match r.latest_qid with
  | none => r
  | some q =>
    match snap q with
    | none => r
    | some s => { r with status := s }

/-- The per-row status refresh applied to every tracked job. -/
def update_from_queue (snap : ℤ → Option String) (ptable : List PRow) : List PRow :=
  ptable.map (refresh_row snap)

/-- The `INTID → row index` dictionary built once per reconciliation pass in
`update_and_recurvsively_submit` (a dict comprehension, so a repeated
`INTID` keeps the last row's index). -/
def id_to_row_map (ptable : List PRow) (intid : ℤ) : Option ℕ :=
  ((List.range ptable.length).filter
      (fun i => ((ptable.get? i).map (fun r => r.intid)) = some intid)).getLast?

/-- `np.sort(np.atleast_1d(ideps))`: dependency ids are visited in
ascending order. -/
def sortIdeps (ideps : List ℤ) : List ℤ :=
  ideps.insertionSort (fun a b => a ≤ b)

mutual

/-- `recursive_submit_failed` (procfuncs.py lines 508-579): resubmit the row
at index `rown`, first recursively resubmitting any dependency whose status
is in the resubmission set (the recursive call falls back to the default
`get_resubmission_states`, as in the source), then refreshing
`LATEST_DEP_QID` from the dependencies' current `LATEST_QID`s, resubmitting
the row itself, and checkpointing the table every 10 submissions (plus a
queue refresh every 100) outside dry runs.  The source recurses through the
`INTID → row` map with no depth bound; `fuel` supplies that bound, and
exhausting it models non-terminating recursion. -/
def recursive_submit_failed (snap : ℤ → Option String) (dry_run : Bool)
    (idMap : ℤ → Option ℕ) (fuel : ℕ) (rown : ℕ) (proc_table : List PRow)
    (st : SubmitState) (submits : ℕ) (resubmission_states : List String) :
    Option (List PRow × SubmitState × ℕ) :=
  match fuel with
  | 0 => none
  | fuel + 1 =>
    match proc_table.get? rown with
    | none => none
    | some row =>
      let afterDeps : Option (List PRow × SubmitState × ℕ) :=
        match row.int_dep_ids with
        | none =>
          some (proc_table.set rown { row with latest_dep_qid := none }, st, submits)
        | some ideps =>
          match resubmit_deps snap dry_run idMap fuel (sortIdeps ideps)
              proc_table st submits [] resubmission_states with
          | none => none
          | some (pt, st, submits, qdeps) =>
            if qdeps.length > 0 then
              match pt.get? rown with
              | none => none
              | some row' => some (pt.set rown { row' with latest_dep_qid := some qdeps }, st, submits)
            else
              some (pt, st, submits)
      match afterDeps with
      | none => none
      | some (pt, st, submits) =>
        match pt.get? rown with
        | none => none
        | some row' =>
          let stepSubmit := submit_batch_script st row' false
          let pt := pt.set rown stepSubmit.2
          let st := stepSubmit.1
          let submits := submits + 1
          if dry_run then
            some (pt, st, submits)
          else
            let st := if submits % 10 = 0 then
                { st with events := st.events ++ [Event.writeProc] } else st
            if submits % 100 = 0 then
              let pt := update_from_queue snap pt
              some (pt, { st with events := st.events ++ [Event.writeProc] }, submits)
            else
              some (pt, st, submits)

/-- The dependency loop of `recursive_submit_failed` (procfuncs.py lines
544-549): for each dependency id in ascending order, recursively resubmit
it when its current status is in the caller's resubmission set, then
collect its current `LATEST_QID`.  The recursive call does not forward the
caller's set, so the recursion proceeds with the default
`get_resubmission_states`, as in the source. -/
def resubmit_deps (snap : ℤ → Option String) (dry_run : Bool)
    (idMap : ℤ → Option ℕ) (fuel : ℕ) (deps : List ℤ) (proc_table : List PRow)
    (st : SubmitState) (submits : ℕ) (qdeps : List QId)
    (resubmission_states : List String) :
    Option (List PRow × SubmitState × ℕ × List QId) :=
  match deps with
  | [] => some (proc_table, st, submits, qdeps)
  | idep :: rest =>
    match idMap idep with
    | none => none
    | some di =>
      match proc_table.get? di with
      | none => none
      | some deprow =>
        if deprow.status ∈ resubmission_states then
          match recursive_submit_failed snap dry_run idMap fuel di proc_table st
              submits get_resubmission_states with
          | none => none
          | some (pt, st, submits) =>
            match pt.get? di with
            | none => none
            | some deprow' =>
              resubmit_deps snap dry_run idMap fuel rest pt st submits
                (qdeps ++ [deprow'.latest_qid]) resubmission_states
        else
          resubmit_deps snap dry_run idMap fuel rest proc_table st submits
            (qdeps ++ [deprow.latest_qid]) resubmission_states

end

/-- The row loop of `update_and_recurvsively_submit` (procfuncs.py lines
501-505): visit the rows in order and resubmit each whose current status is
in the resubmission set. -/
def uars_loop (snap : ℤ → Option String) (dry_run : Bool)
    (idMap : ℤ → Option ℕ) (resubmission_states : List String) (fuel : ℕ) :
    List ℕ → List PRow → SubmitState → ℕ → Option (List PRow × SubmitState × ℕ)
  | [], proc_table, st, submits => some (proc_table, st, submits)
  | rown :: rest, proc_table, st, submits =>
    match proc_table.get? rown with
    | none => none
    | some row =>
      if row.status ∈ resubmission_states then
        match recursive_submit_failed snap dry_run idMap fuel rown proc_table st
            submits resubmission_states with
        | none => none
        | some (pt, st, submits) =>
          uars_loop snap dry_run idMap resubmission_states fuel rest pt st submits
      else
        uars_loop snap dry_run idMap resubmission_states fuel rest proc_table st submits

/-- `update_and_recurvsively_submit` (procfuncs.py lines 465-506): refresh
all statuses from the queue, build the `INTID → row index` map once, and
loop over the rows resubmitting those whose status is in the resubmission
set.  The recursion depth available to each resubmission is the table
length plus one, which covers every dependency chain an acyclic table can
hold. -/
def update_and_recurvsively_submit (snap : ℤ → Option String) (dry_run : Bool)
    (st : SubmitState) (proc_table : List PRow) (submits : ℕ)
    (resubmission_states : List String := get_resubmission_states) :
    Option (List PRow × SubmitState × ℕ) :=
  let proc_table := update_from_queue snap proc_table
  let idMap := id_to_row_map proc_table
  uars_loop snap dry_run idMap resubmission_states (proc_table.length + 1)
    (List.range proc_table.length) proc_table st submits

/-- The `EXPID[0]` of each input row of `make_joint_prow`, collected in
order; fails when an input's exposure list is empty (an index error in the
source). -/
def collectHeads : List PRow → Option (List ℤ)
  | [] => some []
  | r :: rest =>
    match r.expid.head? with
    | none => none
    | some x =>
      match collectHeads rest with
      | none => none
      | some xs => some (x :: xs)

/-- `make_joint_prow` (procfuncs.py lines 676-715): copy the first input
row, set the fresh internal id and the aggregate job description, clear the
queue-id history, and set the dependency ids, the dependency queue ids and
the exposure id list from the inputs (`EXPID[0]` of each input row).  An
empty input list (or an input with an empty exposure list) raises in the
source. -/
def make_joint_prow (prows : List PRow) (descriptor : String) (internal_id : ℤ) :
    Option PRow :=
  match prows with
  | [] => none
  | first :: _ =>
    match collectHeads prows with
    | none => none
    | some expids =>
      some { first with
        intid := internal_id
        jobdesc := descriptor
        all_qids := []
        int_dep_ids := some (prows.map (fun r => r.intid))
        latest_dep_qid := some (prows.map (fun r => r.latest_qid))
        expid := expids }

/-- `set_calibrator_flag` (procfuncs.py lines 762-779): set `CALIBRATOR` to
1 on every table row whose `INTID` matches one of the input rows. -/
def set_calibrator_flag (prows : List PRow) (ptable : List PRow) : List PRow :=
  prows.foldl
    (fun pt prow =>
      pt.map (fun r => if r.intid = prow.intid then { r with calibrator := 1 } else r))
    ptable

/-- The poststdstar fan-out loop of `joint_fit` (procfuncs.py lines
624-632): for each input science row, rewrite it as a `poststdstar` job,
assign it the running internal id (which starts at the value just given to
the joint row), make it depend on the submitted joint row, submit it and
append it to the table. -/
def poststdstar_fanout (st : SubmitState) (ptable : List PRow) (prows : List PRow)
    (internal_id : ℤ) (joint_prow : PRow) : SubmitState × List PRow × ℤ :=
  match prows with
  | [] => (st, ptable, internal_id)
  | row :: rest =>
    let row := { row with jobdesc := "poststdstar", intid := internal_id, all_qids := [] }
    let internal_id := internal_id + 1
    let row := assign_dependency row (Dependency.single joint_prow)
    let step := create_and_submit st row
    poststdstar_fanout step.1 (ptable ++ [step.2]) rest internal_id joint_prow

/-- `joint_fit` (procfuncs.py lines 585-636): normalise the descriptor,
build and submit the joint row, append it, then either fan out poststdstar
jobs (stdstarfit) or set the calibrator flag on the inputs (psfnight and
nightlyflat). -/
def joint_fit (st : SubmitState) (ptable : List PRow) (prows : List PRow)
    (internal_id : ℤ) (descriptor : Option String) :
    Option (SubmitState × List PRow × Option PRow) :=
  match descriptor with
  | none => some (st, ptable, none)
  | some d0 =>
    let d := if d0 = "science" then "stdstarfit"
             else if d0 = "arc" then "psfnight"
             else if d0 = "flat" then "nightlyflat"
             else d0
    if d ≠ "stdstarfit" ∧ d ≠ "psfnight" ∧ d ≠ "nightlyflat" then
      some (st, ptable, none)
    else
      match make_joint_prow prows d internal_id with
      | none => none
      | some jp0 =>
        let step := create_and_submit st jp0
        let st := step.1
        let jp := step.2
        let ptable := ptable ++ [jp]
        if d = "stdstarfit" then
          let fan := poststdstar_fanout st ptable prows internal_id jp
          some (fan.1, fan.2.1, some jp)
        else
          some (st, set_calibrator_flag prows ptable, some jp)

/-- `science_joint_fit` (procfuncs.py): `joint_fit` with descriptor
`stdstarfit`. -/
def science_joint_fit (st : SubmitState) (ptable sciences : List PRow)
    (internal_id : ℤ) : Option (SubmitState × List PRow × Option PRow) :=
  joint_fit st ptable sciences internal_id (some "stdstarfit")

/-- `flat_joint_fit` (procfuncs.py): `joint_fit` with descriptor
`nightlyflat`. -/
def flat_joint_fit (st : SubmitState) (ptable flats : List PRow)
    (internal_id : ℤ) : Option (SubmitState × List PRow × Option PRow) :=
  joint_fit st ptable flats internal_id (some "nightlyflat")

/-- `arc_joint_fit` (procfuncs.py): `joint_fit` with descriptor
`psfnight`. -/
def arc_joint_fit (st : SubmitState) (ptable arcs : List PRow)
    (internal_id : ℤ) : Option (SubmitState × List PRow × Option PRow) :=
  joint_fit st ptable arcs internal_id (some "psfnight")

/-- `checkfor_and_submit_joint_job` (procfuncs.py lines 717-759): decide
whether the run that just ended should be finalised into a joint fit.  A
science run on a non-dither tile is always finalised into a stdstarfit; a
flat run is finalised into a nightlyflat only when none exists yet and more
than 10 flats accumulated; an arc run is finalised into a psfnight only
when none exists yet and more than 4 arcs accumulated; otherwise nothing
happens. -/
def checkfor_and_submit_joint_job (st : SubmitState) (ptable : List PRow)
    (arcs flats sciences : List PRow) (arcjob flatjob : Option PRow)
    (lasttype : Option String) (last_not_dither : Bool) (internal_id : ℤ) :
    Option (SubmitState × List PRow × Option PRow × Option PRow × ℤ) :=
  if lasttype = some "science" ∧ last_not_dither then
    match science_joint_fit st ptable sciences internal_id with
    | none => none
    | some (st', pt', _tilejob) => some (st', pt', arcjob, flatjob, internal_id + 1)
  else if lasttype = some "flat" ∧ flatjob = none ∧ flats.length > 10 then
    match flat_joint_fit st ptable flats internal_id with
    | none => none
    | some (st', pt', fj) => some (st', pt', arcjob, fj, internal_id + 1)
  else if lasttype = some "arc" ∧ arcjob = none ∧ arcs.length > 4 then
    match arc_joint_fit st ptable arcs internal_id with
    | none => none
    | some (st', pt', aj) => some (st', pt', aj, flatjob, internal_id + 1)
  else
    some (st, ptable, arcjob, flatjob, internal_id)

/-- Modelled from the spec: `erow_to_prow` (`desispec.workflow.proctable`,
not in the tree) converts an exposure row into an unsubmitted processing
row carrying that one exposure id and the exposure's static attributes,
with empty queue-id history and no dependencies; `InternalID` is assigned
by the caller. -/
def erow_to_prow (erow : ERow) : PRow :=
  { intid := 0
    expid := [erow.expid]
    tileid := erow.tileid
    obstype := erow.obstype
    jobdesc := erow.obstype
    status := "U"
    latest_qid := none
    all_qids := []
    int_dep_ids := none
    latest_dep_qid := none
    calibrator := 0
    scriptname := ""
    obsdesc := erow.obsdesc
    laststep := erow.laststep
    night := erow.night
    camword := erow.camword
    submit_date := 0 }

/-- Modelled from the spec: `any_jobs_not_complete`
(`desispec.workflow.queue`, not in the tree) reports whether any tracked
job's status is not the queue's terminal success state. -/
def any_jobs_not_complete (statuses : List String) : Bool :=
  statuses.any (fun s => s ≠ "COMPLETED")

/-- The per-exposure time cuts of `submit_night` (submit_night.py lines
156-164): a science shorter than 60s, an arc longer than 8s, or a dark more
than 1s away from 300s is not processed. -/
def good_exptime (erow : ERow) : Bool :=
  if erow.obstype = "science" ∧ erow.exptime < 60 then false
  else if erow.obstype = "arc" ∧ erow.exptime > 8 then false
  else if erow.obstype = "dark" ∧ 1 < (erow.exptime - 300).natAbs then false
  else true

/-- The full goodness predicate of `submit_night` (lines 153-167):
`LASTSTEP` is not `ignore`, the obstype is one the caller processes, and
the exposure time passes the per-type cuts. -/
def good_erow (proc_obstypes : List String) (erow : ERow) : Bool :=
  decide (strLower erow.laststep ≠ "ignore") &&
  decide (erow.obstype ∈ proc_obstypes) &&
  good_exptime erow

/-- Whether a processing row is a dark job. -/
def isDarkRow (r : PRow) : Bool := decide (r.obstype = "dark")

/-- Number of dark jobs in a processing table. -/
def darkCount (pt : List PRow) : ℕ := (pt.filter isDarkRow).length

/-- Whether an exposure row is a dark exposure (the `isdark` mask of
submit_night.py line 175). -/
def isDarkE (e : ERow) : Bool := decide (e.obstype = "dark")

/-- Whether an exposure row is a science exposure (the `issci` mask of
submit_night.py line 183). -/
def isSciE (e : ERow) : Bool := decide (e.obstype = "science")

/-- The acyclicity invariant on one row: every dependency id is strictly
below the row's own internal id. -/
def depsBelowOwn (row : PRow) : Bool :=
  match row.int_dep_ids with
  | none => true
  | some deps => deps.all (fun d => decide (d < row.intid))

/-- The acyclicity invariant on a table. -/
def tableAcyclic (pt : List PRow) : Bool := pt.all depsBelowOwn

/-- The table organisation step of `submit_night` (lines 168-184): split
off the exposures that are not processed, keep only the first dark (the
remaining darks join the unprocessed table, which is sorted by `EXPID`),
and move the science exposures after the calibrations.  Returns the
exposure list fed to the main loop and the unprocessed list. -/
def submit_night_prep (proc_obstypes : List String) (etable : List ERow) :
    List ERow × List ERow :=
  let good := etable.filter (good_erow proc_obstypes)
  let unproc := etable.filter (fun e => ! good_erow proc_obstypes e)
  let darks := good.filter isDarkE
  let step :=
    match darks with
    | [] => (good, unproc)
    | d :: restDarks =>
      ((unproc ++ restDarks).insertionSort (fun a b => a.expid ≤ b.expid),
       d :: good.filter (fun e => ! isDarkE e))
  let unproc2 := step.1
  let g2 := step.2
  let g3 := g2.filter (fun e => ! isSciE e) ++ g2.filter isSciE
  (g3, unproc2)

/-- The mutable state of the main exposure loop of `submit_night`. -/
structure LoopState where
  st : SubmitState
  ptable : List PRow
  arcs : List PRow
  flats : List PRow
  sciences : List PRow
  darkjob : Option PRow
  arcjob : Option PRow
  flatjob : Option PRow
  lasttype : Option String
  lasttile : Option ℤ
  internal_id : ℤ
  last_not_dither : Bool
  tableng : Option ℕ

/-- The per-exposure row construction and submission of the main loop of
`submit_night` (lines 234-242): convert the exposure row, assign the next
internal id and the job description, wire the dependency, and submit
strictly-successfully. -/
def loop_submit_row (st : SubmitState) (erow : ERow) (internal_id : ℤ)
    (arcjob flatjob : Option PRow) : SubmitState × PRow :=
  create_and_submit st
    (define_and_assign_dependency
      { erow_to_prow erow with intid := internal_id, jobdesc := (erow_to_prow erow).obstype }
      arcjob flatjob) true

/-- The calibrator marking of a freshly processed dark (submit_night.py
lines 245-247): a dark row is remembered as the night's dark job with its
calibrator flag set. -/
def loop_final_row (curtype : String) (sub2 : PRow) : PRow :=
  if curtype = "dark" then { sub2 with calibrator := 1 } else sub2

/-- The main exposure loop of `submit_night` (lines 209-272): skip
exposures already in the processing table; skip (with a report) a dark when
a dark job already exists; on an obstype or tile change hand the
accumulated run to `checkfor_and_submit_joint_job`; then build the new
row, assign its internal id and dependencies, submit it, remember a dark as
the night's dark job, append the row, and accumulate it into the open
arc/flat/science run.  The processing table is checkpointed every tenth
exposure below dry-run level 3.  The dither flag for the joint-fit decision
is carried as in `parse_previous_tables`: the last processed exposure's
`OBSDESC` differing from `dither`. -/
def submit_night_loop (dry_run_level : ℕ) (ptable_expids : List ℤ) :
    List ERow → ℕ → LoopState → Option LoopState
  | [], _, ls => some ls
  | erow :: rest, ii, ls =>
    if erow.expid ∈ ptable_expids then
      submit_night_loop dry_run_level ptable_expids rest (ii + 1) ls
    else if erow.obstype = "dark" ∧ ls.darkjob ≠ none then
      submit_night_loop dry_run_level ptable_expids rest (ii + 1) ls
    else
      let ct := get_type_and_tile erow
      let curtype := ct.1
      let curtile := ct.2
      let afterJoint : Option (SubmitState × List PRow × Option PRow × Option PRow × ℤ) :=
        if ls.lasttype ≠ none ∧ (some curtype ≠ ls.lasttype ∨ some curtile ≠ ls.lasttile) then
          checkfor_and_submit_joint_job ls.st ls.ptable ls.arcs ls.flats ls.sciences
            ls.arcjob ls.flatjob ls.lasttype ls.last_not_dither ls.internal_id
        else
          some (ls.st, ls.ptable, ls.arcjob, ls.flatjob, ls.internal_id)
      match afterJoint with
      | none => none
      | some (st, ptable, arcjob, flatjob, internal_id) =>
        let sub := loop_submit_row st erow internal_id arcjob flatjob
        let internal_id := internal_id + 1
        let st := sub.1
        let prow := loop_final_row curtype sub.2
        let darkjob := if curtype = "dark" then some prow else ls.darkjob
        let ptable := ptable ++ [prow]
        let flats :=
          if curtype = "flat" ∧ flatjob = none ∧ erow.seqtot < 5 then ls.flats ++ [prow]
          else ls.flats
        let arcs :=
          if curtype = "arc" ∧ arcjob = none then ls.arcs ++ [prow] else ls.arcs
        let sciences :=
          if curtype = "science" ∧ prow.laststep ≠ "skysub" then ls.sciences ++ [prow]
          else ls.sciences
        let st :=
          if ptable.length > 0 ∧ ii % 10 = 0 ∧ dry_run_level < 3 then
            { st with events := st.events ++ [Event.writeProc] }
          else st
        submit_night_loop dry_run_level ptable_expids rest (ii + 1)
          { st := st, ptable := ptable, arcs := arcs, flats := flats
            sciences := sciences, darkjob := darkjob, arcjob := arcjob
            flatjob := flatjob, lasttype := some curtype, lasttile := some curtile
            internal_id := internal_id
            last_not_dither := decide (erow.obsdesc ≠ "dither")
            tableng := some ptable.length }

/-- How a `submit_night` run ends. -/
inductive SNOutcome where
  /-- The exposure table for the night does not exist. -/
  | refusedNoExpTable
  /-- A processing table already exists and appending was not requested. -/
  | refusedExisting
  /-- The existing processing table has jobs with incomplete status and the
  caller did not ask to ignore that. -/
  | refusedIncomplete
  /-- Every exposure is already in the processing table. -/
  | refusedAllPresent
  /-- A Python exception escaped. -/
  | pyerror
  /-- The night was processed; the final processing table and the
  unprocessed-exposure table. -/
  | completed (ptable : List PRow) (unproc : List ERow)

/-- The tail of `submit_night` after the startup gates (lines 209-286):
run the main exposure loop from the recovered state, then, when any
exposure was processed, run the end-of-stream joint-fit pass, refresh the
table from the queue and write it out below dry-run level 3. -/
def submit_night_run (dry_run_level : ℕ) (snap : ℤ → Option String)
    (ps : ParsedState) (ptable : List PRow) (ptable_expids : List ℤ)
    (etab2 unproc : List ERow) (st : SubmitState) : SNOutcome × SubmitState :=
  let ls0 : LoopState :=
    { st := st, ptable := ptable, arcs := ps.arcs, flats := ps.flats
      sciences := ps.sciences, darkjob := none, arcjob := ps.arcjob
      flatjob := ps.flatjob, lasttype := ps.lasttype, lasttile := ps.lasttile
      internal_id := ps.internal_id, last_not_dither := ps.last_not_dither
      tableng := none }
  match submit_night_loop dry_run_level ptable_expids etab2 0 ls0 with
  | none => (SNOutcome.pyerror, st)
  | some ls =>
    match ls.tableng with
    | none => (SNOutcome.pyerror, ls.st)
    | some n =>
      if n > 0 then
        match checkfor_and_submit_joint_job ls.st ls.ptable ls.arcs ls.flats
            ls.sciences ls.arcjob ls.flatjob ls.lasttype ls.last_not_dither
            ls.internal_id with
        | none => (SNOutcome.pyerror, ls.st)
        | some (st2, pt2, _, _, _) =>
          let pt3 := update_from_queue snap pt2
          let st3 :=
            if dry_run_level < 3 then
              { st2 with events := st2.events ++ [Event.writeProc] }
            else st2
          (SNOutcome.completed pt3 unproc, st3)
      else
        (SNOutcome.pyerror, ls.st)

/-- `submit_night` (submit_night.py): the whole nightly run — startup
refusal checks, exposure-table preparation, state recovery, the main loop,
and the final joint-fit pass.  External inputs are the existence of the two
tables on disk, the loaded tables, and the queue snapshot; the returned
`SubmitState` carries the trace of submissions and durable writes.  The
initial dark job of the loop is unset, and helper calls are resolved
against the helper definitions in the tree. -/
def submit_night (night : ℤ) (proc_obstypes : List String)
    (exp_table_exists proc_table_exists : Bool)
    (append_to_proc_table ignore_proc_table_failures : Bool)
    (dry_run_level : ℕ) (snap : ℤ → Option String)
    (etable : List ERow) (ptable0 : List PRow) (st : SubmitState) :
    SNOutcome × SubmitState :=
  if ¬ exp_table_exists then
    (SNOutcome.refusedNoExpTable, st)
  else if proc_table_exists ∧ ¬ append_to_proc_table then
    (SNOutcome.refusedExisting, st)
  else
    let prep := submit_night_prep proc_obstypes etable
    let etab2 := prep.1
    let unproc := prep.2
    let st :=
      if dry_run_level < 3 then
        { st with events := st.events ++ [Event.writeUnproc] }
      else st
    match parse_previous_tables etab2 ptable0 night with
    | none => (SNOutcome.pyerror, st)
    | some ps =>
      if ptable0.length > 0 then
        let pt := update_from_queue snap ptable0
        let st :=
          if dry_run_level < 3 then
            { st with events := st.events ++ [Event.writeProc] }
          else st
        if any_jobs_not_complete (pt.map (fun r => r.status)) ∧
           ¬ ignore_proc_table_failures then
          (SNOutcome.refusedIncomplete, st)
        else
          let ptable_expids := (pt.flatMap (fun r => r.expid)).dedup
          if (etab2.map (fun e => e.expid)).all (fun e => decide (e ∈ ptable_expids)) then
            (SNOutcome.refusedAllPresent, st)
          else
            submit_night_run dry_run_level snap ps pt ptable_expids etab2 unproc st
      else
        submit_night_run dry_run_level snap ps ptable0 [] etab2 unproc st


/-- A template processing row for the concrete instances below. -/
def baseRow : PRow :=
  { intid := 0, expid := [0], tileid := -99, obstype := "science",
    jobdesc := "science", status := "U", latest_qid := none, all_qids := []
    int_dep_ids := none, latest_dep_qid := none, calibrator := 0
    scriptname := "", obsdesc := "", laststep := "all", night := 20210101
    camword := "a0", submit_date := 0 }

/-- A submitted prestdstar science job, internal id 5. -/
def sciRow5 : PRow :=
  { baseRow with intid := 5, expid := [101], tileid := 500
                 jobdesc := "prestdstar", status := "COMPLETED"
                 latest_qid := some 900, all_qids := [900] }

/-- A twilight exposure row awaiting dependency assignment. -/
def twiRow : PRow :=
  { baseRow with intid := 12, expid := [44], obstype := "twilight", jobdesc := "twilight" }

/-- A nightlyflat joint job usable as a flat dependency. -/
def flatjobRow : PRow :=
  { baseRow with intid := 7, expid := [21], obstype := "flat"
                 jobdesc := "nightlyflat", status := "COMPLETED"
                 latest_qid := some 555, all_qids := [555] }

/-- An initial external state. -/
def st0 : SubmitState := { nextQid := 100, events := [] }

/-- An unsubmitted arc job with no dependencies. -/
def arcRow : PRow :=
  { baseRow with intid := 1, expid := [11], obstype := "arc", jobdesc := "arc" }

/-- A second submitted arc job, internal id 2. -/
def arcRow2 : PRow :=
  { baseRow with intid := 2, expid := [12], obstype := "arc", jobdesc := "arc"
                 status := "COMPLETED", latest_qid := some 901, all_qids := [901] }

/-- Number of rows with the given job description in a table. -/
def countJob (d : String) (pt : List PRow) : ℕ :=
  (pt.filter (fun r => decide (r.jobdesc = d))).length

/-- Five accumulated arc jobs. -/
def arcs5 : List PRow :=
  [ { arcRow with intid := 1, expid := [11] },
    { arcRow with intid := 2, expid := [12] },
    { arcRow with intid := 3, expid := [13] },
    { arcRow with intid := 4, expid := [14] },
    { arcRow with intid := 5, expid := [15] } ]

/-- A failed arc job with no dependencies, internal id 1. -/
def failedA : PRow :=
  { baseRow with intid := 1, expid := [11], obstype := "arc", jobdesc := "arc"
                 status := "TIMEOUT", latest_qid := some 700, all_qids := [700] }

/-- A failed flat job depending on `failedA`, internal id 2. -/
def failedB : PRow :=
  { baseRow with intid := 2, expid := [12], obstype := "flat", jobdesc := "flat"
                 status := "NODE_FAIL", latest_qid := some 701, all_qids := [701]
                 int_dep_ids := some [1], latest_dep_qid := some [some 700] }

/-- A stuck prestdstar job whose status is an unresolved failure. -/
def stuckRow : PRow :=
  { baseRow with intid := 3, expid := [13], tileid := 500
                 jobdesc := "prestdstar", status := "TIMEOUT"
                 latest_qid := some 702, all_qids := [702] }

/-- The duplicate-dark invariant carried through the main exposure loop:
the open arc/flat/science runs contain no dark jobs (and their rows carry
exposures), every dark job in the table processes the authoritative dark
exposure `dexp`, there is at most one dark job, and there is none at all
while no dark job has been remembered. -/
structure DarkInvP (dexp : ℤ) (ls : LoopState) : Prop where
  arcsOk : ∀ r ∈ ls.arcs, r.obstype ≠ "dark" ∧ r.expid ≠ []
  flatsOk : ∀ r ∈ ls.flats, r.obstype ≠ "dark" ∧ r.expid ≠ []
  scisOk : ∀ r ∈ ls.sciences, r.obstype ≠ "dark" ∧ r.expid ≠ []
  darkExp : ∀ r ∈ ls.ptable, r.obstype = "dark" → r.expid = [dexp]
  countLe : darkCount ls.ptable ≤ 1
  noneZero : ls.darkjob = none → darkCount ls.ptable = 0

/-- A dark exposure for the duplicate-dark instance. -/
def darkE1 : ERow :=
  { expid := 1, obstype := "dark", tileid := -99, exptime := 300, seqnum := 1
    seqtot := 1, laststep := "all", obsdesc := "", night := 20210101
    camword := "a0" }

/-- A second dark exposure of the same night. -/
def darkE2 : ERow := { darkE1 with expid := 2 }

/-- The obstypes processed in the duplicate-dark instance. -/
def dPot : List String := ["dark"]

/-- Whether a run of `submit_night` ended with the night processed. -/
def snCompleted : SNOutcome → Bool
  | SNOutcome.completed _ _ => true
  | _ => false

/-- C7: the dependency condition passed to the scheduler is strict
(`afterok`) exactly when the caller requests strictly-successful mode or
the job type is flat, nightlyflat or poststdstar; it is lenient
(`afterany`) for arc, prestdstar, psfnight and stdstarfit jobs outside
strict mode; and a job whose dependency field is `None` or an empty list is
submitted with no dependency expression at all. -/
theorem submit_dependency_condition (strict : Bool) (jd : String)
    (st : SubmitState) (prow : PRow) :
    (submit_depcond strict jd = "afterok" ↔
      (strict = true ∨ jd = "flat" ∨ jd = "nightlyflat" ∨ jd = "poststdstar")) ∧
    ((strict = false ∧ (jd = "arc" ∨ jd = "prestdstar" ∨ jd = "psfnight" ∨ jd = "stdstarfit")) →
      submit_depcond strict jd = "afterany") ∧
    ((prow.latest_dep_qid = none ∨ prow.latest_dep_qid = some []) →
      (submit_batch_script st prow strict).1.events =
        st.events ++ [Event.submit prow.intid prow.jobdesc "" st.nextQid]) := by
  refine ⟨?_, ?_, ?_⟩
  · unfold submit_depcond
    rcases strict with _ | _
    · by_cases hj : jd = "flat" ∨ jd = "nightlyflat" ∨ jd = "poststdstar"
      · simp [hj]
      · simp [hj]
    · simp
  · rintro ⟨hs, hj⟩
    subst hs
    unfold submit_depcond
    rcases hj with h | h | h | h <;> (subst h; decide)
  · intro h
    unfold submit_batch_script submit_dep_str
    rcases h with h | h
    · rw [h]
    · rw [h]
      simp

/-- C7 witness: a lenient arc job with no dependencies gets `afterany` as
condition and an empty dependency expression. -/
theorem submit_dependency_condition_witness :
    submit_depcond false "arc" = "afterany" ∧
    (submit_batch_script st0 arcRow false).1.events =
      st0.events ++ [Event.submit arcRow.intid arcRow.jobdesc "" st0.nextQid] :=
  ⟨(submit_dependency_condition false "arc" st0 arcRow).2.1 ⟨rfl, Or.inl rfl⟩,
   (submit_dependency_condition false "arc" st0 arcRow).2.2 (Or.inl (by decide))⟩

/-- C5 counterexample: a `twilight` exposure is not rewritten to
`prestdstar` and gets no flat dependency, even when a nightlyflat job is
available — the source's prestdstar branch matches obstype `twiflat`, not
`twilight`, so `twilight` falls through to the no-dependency branch. -/
theorem define_dependency_twilight_counterexample :
    (define_and_assign_dependency twiRow none (some flatjobRow)).jobdesc = "twilight" ∧
    (define_and_assign_dependency twiRow none (some flatjobRow)).int_dep_ids = none ∧
    ¬ (define_and_assign_dependency twiRow none (some flatjobRow)).jobdesc = "prestdstar" := by
  decide

/-- C5 amended: `define_and_assign_dependency` sets JobDesc to `prestdstar`
with dependency on the nightlyflat job (when present) for obstypes
`science` and `twiflat`; keeps JobDesc `flat` with dependency on the
psfnight job (when present) for `flat`; and for every other obstype
(`arc`, `dark`, and also `twilight`) sets JobDesc to the obstype and
assigns no dependency. -/
theorem define_and_assign_dependency_cases (prow : PRow) (arcjob flatjob : Option PRow) :
    ((prow.obstype = "science" ∨ prow.obstype = "twiflat") →
      (define_and_assign_dependency prow arcjob flatjob).jobdesc = "prestdstar" ∧
      (∀ fj, flatjob = some fj →
        (define_and_assign_dependency prow arcjob flatjob).int_dep_ids = some [fj.intid] ∧
        (define_and_assign_dependency prow arcjob flatjob).latest_dep_qid = some [fj.latest_qid]) ∧
      (flatjob = none →
        (define_and_assign_dependency prow arcjob flatjob).int_dep_ids = prow.int_dep_ids ∧
        (define_and_assign_dependency prow arcjob flatjob).latest_dep_qid = prow.latest_dep_qid)) ∧
    (prow.obstype = "flat" →
      (define_and_assign_dependency prow arcjob flatjob).jobdesc = "flat" ∧
      (∀ aj, arcjob = some aj →
        (define_and_assign_dependency prow arcjob flatjob).int_dep_ids = some [aj.intid] ∧
        (define_and_assign_dependency prow arcjob flatjob).latest_dep_qid = some [aj.latest_qid]) ∧
      (arcjob = none →
        (define_and_assign_dependency prow arcjob flatjob).int_dep_ids = prow.int_dep_ids ∧
        (define_and_assign_dependency prow arcjob flatjob).latest_dep_qid = prow.latest_dep_qid)) ∧
    ((prow.obstype ≠ "science" ∧ prow.obstype ≠ "twiflat" ∧ prow.obstype ≠ "flat") →
      (define_and_assign_dependency prow arcjob flatjob).jobdesc = prow.obstype ∧
      (define_and_assign_dependency prow arcjob flatjob).int_dep_ids = prow.int_dep_ids ∧
      (define_and_assign_dependency prow arcjob flatjob).latest_dep_qid = prow.latest_dep_qid) := by
  refine ⟨?_, ?_, ?_⟩
  · intro h
    unfold define_and_assign_dependency
    simp only [h]
    rcases flatjob with _ | fj
    · constructor
      · rcases h with h | h <;> simp [h, optDep, assign_dependency]
      · constructor
        · intro fj hfj
          exact absurd hfj (by simp)
        · intro _
          rcases h with h | h <;> simp [h, optDep, assign_dependency]
    · constructor
      · rcases h with h | h <;> simp [h, optDep, assign_dependency]
      · constructor
        · intro fj' hfj
          rcases h with h | h <;>
            simp [h, optDep, assign_dependency] <;>
            simp_all
        · intro hno
          exact absurd hno (by simp)
  · intro h
    unfold define_and_assign_dependency
    have hns : ¬ (prow.obstype = "science" ∨ prow.obstype = "twiflat") := by
      rw [h]; decide
    simp only [h]
    rcases arcjob with _ | aj
    · refine ⟨by simp [optDep, assign_dependency], ?_, ?_⟩
      · intro aj haj
        exact absurd haj (by simp)
      · intro _
        simp [optDep, assign_dependency]
    · refine ⟨by simp [optDep, assign_dependency], ?_, ?_⟩
      · intro aj' haj
        simp only [Option.some.injEq] at haj
        subst haj
        simp [optDep, assign_dependency]
      · intro hno
        exact absurd hno (by simp)
  · rintro ⟨h1, h2, h3⟩
    unfold define_and_assign_dependency
    simp only [h1, h2, h3, if_neg, assign_dependency]
    have hns : ¬ ((fun p => p.obstype = "science" ∨ p.obstype = "twiflat")
        ({ prow with jobdesc := prow.obstype } : PRow)) := by
      simpa using And.intro h1 h2
    simp_all [assign_dependency]

/-- C5 witness: a science exposure with a nightlyflat job present becomes a
prestdstar job depending on that nightlyflat. -/
theorem define_and_assign_dependency_cases_witness :
    (define_and_assign_dependency { baseRow with obstype := "science" } none
        (some flatjobRow)).jobdesc = "prestdstar" ∧
    (define_and_assign_dependency { baseRow with obstype := "science" } none
        (some flatjobRow)).int_dep_ids = some [flatjobRow.intid] := by
  have h := (define_and_assign_dependency_cases { baseRow with obstype := "science" }
      none (some flatjobRow)).1 (Or.inl rfl)
  exact ⟨h.1, (h.2.1 flatjobRow rfl).1⟩

/-- C6: `parse_previous_tables` is a pure function of its inputs — running
it twice on the same exposure table, processing table and night yields
identical reconstructed state, and it performs no writes (in this embedding
it only returns derived values, as the source only reads its inputs) — and
on an empty processing table every open-run list is empty, every pointer is
unset, the last type and tile are unset, the internal id counter starts
from the night-derived base value, and the dither flag defaults to true. -/
theorem parse_previous_tables_idempotent_and_empty (etable : List ERow)
    (ptable : List PRow) (night : ℤ) :
    parse_previous_tables etable ptable night = parse_previous_tables etable ptable night ∧
    parse_previous_tables etable [] night =
      some { arcs := [], flats := [], sciences := [], arcjob := none, flatjob := none
             curtype := none, lasttype := none, curtile := none, lasttile := none
             internal_id := night_to_starting_iid night, last_not_dither := true } :=
  ⟨rfl, rfl⟩

/-- C1 failing input: a stdstarfit joint fit over one accumulated
prestdstar job (internal id 5) at next internal id 6.  The joint row gets
internal id 6, and the first fan-out poststdstar row also gets internal
id 6 with dependency list `[6]` — its dependency id is not strictly below
its own internal id, so the produced table violates the acyclicity
invariant. -/
theorem joint_fit_fanout_breaks_acyclicity :
    ∃ stOut ptOut jp,
      joint_fit st0 [] [sciRow5] 6 (some "stdstarfit") = some (stOut, ptOut, jp) ∧
      ptOut.map (fun r => (r.intid, r.int_dep_ids)) = [(6, some [5]), (6, some [6])] ∧
      tableAcyclic ptOut = false := by
  refine ⟨_, _, _, rfl, by decide, by decide⟩

/-- When every input row carries exactly one exposure id, collecting
`EXPID[0]` of each input succeeds and yields the concatenation (union) of
the inputs' exposure id lists. -/
theorem collectHeads_of_singletons (prows : List PRow)
    (h : ∀ r ∈ prows, r.expid.length = 1) :
    collectHeads prows = some ((prows.map (fun r => r.expid)).flatten) := by
  induction prows with
  | nil => simp [collectHeads]
  | cons a tl ih =>
    have ha : a.expid.length = 1 := h a (by simp)
    obtain ⟨x, hx⟩ := List.length_eq_one.mp ha
    have htl := ih (fun r hr => h r (by simp [hr]))
    simp [collectHeads, hx, htl]

/-- When every input row carries at least one exposure id, collecting
`EXPID[0]` of each input succeeds. -/
theorem collectHeads_of_nonempty (prows : List PRow)
    (h : ∀ r ∈ prows, r.expid ≠ []) :
    ∃ es, collectHeads prows = some es := by
  induction prows with
  | nil => exact ⟨[], by simp [collectHeads]⟩
  | cons a tl ih =>
    obtain ⟨es, hes⟩ := ih (fun r hr => h r (by simp [hr]))
    have ha : a.expid ≠ [] := h a (by simp)
    obtain ⟨x, xs, hx⟩ := List.exists_cons_of_ne_nil ha
    exact ⟨x :: es, by simp [collectHeads, hx, hes]⟩

/-- C8: a joint-fit row built by `make_joint_prow` from per-exposure input
jobs (each carrying exactly one exposure id) has `ExpIDs` exactly the union
of the inputs' exposure ids, the supplied fresh internal id, the aggregate
job description, dependency ids exactly the inputs' internal ids, latest
dependency queue ids exactly the inputs' current queue ids, an emptied
queue-id history, and every other static attribute copied from the first
input row. -/
theorem make_joint_prow_spec (descriptor : String) (internal_id : ℤ)
    (first : PRow) (rest : List PRow)
    (h1 : ∀ r ∈ first :: rest, r.expid.length = 1) :
    ∃ jp, make_joint_prow (first :: rest) descriptor internal_id = some jp ∧
      jp.expid = ((first :: rest).map (fun r => r.expid)).flatten ∧
      jp.intid = internal_id ∧
      jp.jobdesc = descriptor ∧
      jp.int_dep_ids = some ((first :: rest).map (fun r => r.intid)) ∧
      jp.latest_dep_qid = some ((first :: rest).map (fun r => r.latest_qid)) ∧
      jp.all_qids = [] ∧
      jp.tileid = first.tileid ∧ jp.obstype = first.obstype ∧
      jp.night = first.night ∧ jp.camword = first.camword ∧
      jp.obsdesc = first.obsdesc ∧ jp.laststep = first.laststep ∧
      jp.status = first.status ∧ jp.latest_qid = first.latest_qid := by
  have hm := collectHeads_of_singletons (first :: rest) h1
  refine ⟨{ first with
      intid := internal_id
      jobdesc := descriptor
      all_qids := []
      int_dep_ids := some ((first :: rest).map (fun r => r.intid))
      latest_dep_qid := some ((first :: rest).map (fun r => r.latest_qid))
      expid := ((first :: rest).map (fun r => r.expid)).flatten }, ?_,
    rfl, rfl, rfl, rfl, rfl, rfl, rfl, rfl, rfl, rfl, rfl, rfl, rfl, rfl⟩
  simp only [make_joint_prow]
  rw [hm]


/-- C8 witness: the psfnight joint row over two concrete arc jobs. -/
theorem make_joint_prow_spec_witness :
    ∃ jp, make_joint_prow [arcRow, arcRow2] "psfnight" 3 = some jp ∧
      jp.expid = (([arcRow, arcRow2]).map (fun r => r.expid)).flatten ∧
      jp.intid = 3 ∧
      jp.jobdesc = "psfnight" ∧
      jp.int_dep_ids = some (([arcRow, arcRow2]).map (fun r => r.intid)) ∧
      jp.latest_dep_qid = some (([arcRow, arcRow2]).map (fun r => r.latest_qid)) ∧
      jp.all_qids = [] ∧
      jp.tileid = arcRow.tileid ∧ jp.obstype = arcRow.obstype ∧
      jp.night = arcRow.night ∧ jp.camword = arcRow.camword ∧
      jp.obsdesc = arcRow.obsdesc ∧ jp.laststep = arcRow.laststep ∧
      jp.status = arcRow.status ∧ jp.latest_qid = arcRow.latest_qid :=
  make_joint_prow_spec "psfnight" 3 arcRow [arcRow2] (by decide)


theorem countJob_append (d : String) (a b : List PRow) :
    countJob d (a ++ b) = countJob d a + countJob d b := by
  simp [countJob, List.filter_append]

theorem countJob_map_of_preserve (d : String) (f : PRow → PRow) (pt : List PRow)
    (h : ∀ r, (f r).jobdesc = r.jobdesc) :
    countJob d (pt.map f) = countJob d pt := by
  induction pt with
  | nil => rfl
  | cons a tl ih =>
    simp only [List.map_cons, countJob, List.filter_cons] at ih ⊢
    rw [h a]
    by_cases hd : a.jobdesc = d
    · simpa [hd] using ih
    · simpa [hd] using ih

theorem countJob_set_calibrator_flag (d : String) (prows pt : List PRow) :
    countJob d (set_calibrator_flag prows pt) = countJob d pt := by
  induction prows generalizing pt with
  | nil => rfl
  | cons p tl ih =>
    show countJob d (set_calibrator_flag tl
      (pt.map (fun r => if r.intid = p.intid then { r with calibrator := 1 } else r))) = _
    rw [ih, countJob_map_of_preserve]
    intro r
    by_cases h : r.intid = p.intid <;> simp [h]

theorem create_and_submit_snd (st : SubmitState) (p : PRow) (b : Bool) :
    (create_and_submit st p b).2 =
      { p with
        scriptname := batch_script_name p
        latest_qid := some st.nextQid
        all_qids := p.all_qids ++ [st.nextQid]
        status := "SU"
        submit_date := st.nextQid } := rfl

theorem create_and_submit_fst (st : SubmitState) (p : PRow) (b : Bool) :
    (create_and_submit st p b).1 =
      { nextQid := st.nextQid + 1
        events := st.events ++
          [Event.submit p.intid p.jobdesc
            (submit_dep_str (create_batch_script p) b) st.nextQid] } := rfl

/-- `joint_fit` on a nonempty run with descriptor `psfnight` or
`nightlyflat`: the joint row is built, submitted and appended, and the
inputs are flagged as calibrators; exactly one row with the aggregate job
description is added. -/
theorem joint_fit_calib_spec (st : SubmitState) (pt : List PRow)
    (first : PRow) (rest : List PRow) (iid : ℤ) (d : String)
    (hd : d = "psfnight" ∨ d = "nightlyflat")
    (hexp : ∀ r ∈ first :: rest, r.expid ≠ []) :
    ∃ st' pt' jp,
      joint_fit st pt (first :: rest) iid (some d) = some (st', pt', some jp) ∧
      pt' = set_calibrator_flag (first :: rest) (pt ++ [jp]) ∧
      jp.jobdesc = d ∧ jp.intid = iid ∧ jp.status = "SU" ∧
      jp.obstype = first.obstype ∧
      countJob d pt' = countJob d pt + 1 := by
  obtain ⟨es, hes⟩ := collectHeads_of_nonempty (first :: rest) hexp
  have hmk : make_joint_prow (first :: rest) d iid =
      some { first with
        intid := iid
        jobdesc := d
        all_qids := []
        int_dep_ids := some ((first :: rest).map (fun r => r.intid))
        latest_dep_qid := some ((first :: rest).map (fun r => r.latest_qid))
        expid := es } := by
    simp only [make_joint_prow]
    rw [hes]
  have hne1 : ¬ (d = "science") := by rcases hd with h | h <;> (subst h; decide)
  have hne2 : ¬ (d = "arc") := by rcases hd with h | h <;> (subst h; decide)
  have hne3 : ¬ (d = "flat") := by rcases hd with h | h <;> (subst h; decide)
  have hguard : ¬ (d ≠ "stdstarfit" ∧ d ≠ "psfnight" ∧ d ≠ "nightlyflat") := by
    rcases hd with h | h <;> (subst h; decide)
  have hnstd : ¬ (d = "stdstarfit") := by rcases hd with h | h <;> (subst h; decide)
  refine ⟨(create_and_submit st { first with
      intid := iid
      jobdesc := d
      all_qids := []
      int_dep_ids := some ((first :: rest).map (fun r => r.intid))
      latest_dep_qid := some ((first :: rest).map (fun r => r.latest_qid))
      expid := es } false).1,
    set_calibrator_flag (first :: rest) (pt ++ [(create_and_submit st { first with
      intid := iid
      jobdesc := d
      all_qids := []
      int_dep_ids := some ((first :: rest).map (fun r => r.intid))
      latest_dep_qid := some ((first :: rest).map (fun r => r.latest_qid))
      expid := es } false).2]),
    (create_and_submit st { first with
      intid := iid
      jobdesc := d
      all_qids := []
      int_dep_ids := some ((first :: rest).map (fun r => r.intid))
      latest_dep_qid := some ((first :: rest).map (fun r => r.latest_qid))
      expid := es } false).2, ?_, rfl, rfl, rfl, rfl, rfl, ?_⟩
  · simp only [joint_fit, if_neg hne1, if_neg hne2, if_neg hne3, if_neg hguard, if_neg hnstd]
    rw [hmk]
  · rw [countJob_set_calibrator_flag, countJob_append]
    simp [countJob, create_and_submit, submit_batch_script, create_batch_script]

/-- C4: with the last obstype `arc`, `checkfor_and_submit_joint_job`
creates a psfnight joint job exactly when no psfnight job exists yet and
strictly more than 4 arc jobs accumulated; with the last obstype `flat` it
creates a nightlyflat exactly when none exists yet and strictly more than
10 flat jobs accumulated; below the threshold (or with the joint job
already present) nothing is created and the table, the pointers and the
internal id counter are returned unchanged. -/
theorem checkfor_joint_thresholds (st : SubmitState) (pt arcs flats scis : List PRow)
    (aj fj : Option PRow) (lnd : Bool) (iid : ℤ)
    (ha : ∀ r ∈ arcs, r.expid ≠ []) (hf : ∀ r ∈ flats, r.expid ≠ []) :
    ((aj = none ∧ arcs.length > 4 →
        ∃ st' pt' jp,
          checkfor_and_submit_joint_job st pt arcs flats scis aj fj (some "arc") lnd iid =
            some (st', pt', some jp, fj, iid + 1) ∧
          jp.jobdesc = "psfnight" ∧ jp.intid = iid ∧
          countJob "psfnight" pt' = countJob "psfnight" pt + 1) ∧
      (¬ (aj = none ∧ arcs.length > 4) →
        checkfor_and_submit_joint_job st pt arcs flats scis aj fj (some "arc") lnd iid =
          some (st, pt, aj, fj, iid))) ∧
    ((fj = none ∧ flats.length > 10 →
        ∃ st' pt' jp,
          checkfor_and_submit_joint_job st pt arcs flats scis aj fj (some "flat") lnd iid =
            some (st', pt', aj, some jp, iid + 1) ∧
          jp.jobdesc = "nightlyflat" ∧ jp.intid = iid ∧
          countJob "nightlyflat" pt' = countJob "nightlyflat" pt + 1) ∧
      (¬ (fj = none ∧ flats.length > 10) →
        checkfor_and_submit_joint_job st pt arcs flats scis aj fj (some "flat") lnd iid =
          some (st, pt, aj, fj, iid))) := by
  refine ⟨⟨?_, ?_⟩, ⟨?_, ?_⟩⟩
  · rintro ⟨h1, h2⟩
    have hne : arcs ≠ [] := by
      intro hnil
      rw [hnil] at h2
      simp at h2
    obtain ⟨first, rest, hfr⟩ := List.exists_cons_of_ne_nil hne
    subst hfr
    obtain ⟨st', pt', jp, heq, _hpt, hjd, hint, _hst, _hob, hcount⟩ :=
      joint_fit_calib_spec st pt first rest iid "psfnight" (Or.inl rfl) ha
    refine ⟨st', pt', jp, ?_, hjd, hint, hcount⟩
    have hc1 : ¬ ((some "arc" : Option String) = some "science" ∧ lnd = true) := by simp
    have hc2 : ¬ ((some "arc" : Option String) = some "flat" ∧ fj = none ∧
        flats.length > 10) := by simp
    have hc3 : True ∧ aj = none ∧ (first :: rest).length > 4 := ⟨trivial, h1, h2⟩
    simp only [checkfor_and_submit_joint_job]
    rw [if_neg hc1, if_neg hc2, if_pos hc3]
    simp only [arc_joint_fit]
    rw [heq]
  · intro h
    have hc1 : ¬ ((some "arc" : Option String) = some "science" ∧ lnd = true) := by simp
    have hc2 : ¬ ((some "arc" : Option String) = some "flat" ∧ fj = none ∧
        flats.length > 10) := by simp
    have hc3 : ¬ (True ∧ aj = none ∧ arcs.length > 4) := by
      rintro ⟨_, h2, h3⟩
      exact h ⟨h2, h3⟩
    simp only [checkfor_and_submit_joint_job]
    rw [if_neg hc1, if_neg hc2, if_neg hc3]
  · rintro ⟨h1, h2⟩
    have hne : flats ≠ [] := by
      intro hnil
      rw [hnil] at h2
      simp at h2
    obtain ⟨first, rest, hfr⟩ := List.exists_cons_of_ne_nil hne
    subst hfr
    obtain ⟨st', pt', jp, heq, _hpt, hjd, hint, _hst, _hob, hcount⟩ :=
      joint_fit_calib_spec st pt first rest iid "nightlyflat" (Or.inr rfl) hf
    refine ⟨st', pt', jp, ?_, hjd, hint, hcount⟩
    have hc1 : ¬ ((some "flat" : Option String) = some "science" ∧ lnd = true) := by simp
    have hc2 : True ∧ fj = none ∧ (first :: rest).length > 10 := ⟨trivial, h1, h2⟩
    simp only [checkfor_and_submit_joint_job]
    rw [if_neg hc1, if_pos hc2]
    simp only [flat_joint_fit]
    rw [heq]
  · intro h
    have hc1 : ¬ ((some "flat" : Option String) = some "science" ∧ lnd = true) := by simp
    have hc2 : ¬ (True ∧ fj = none ∧ flats.length > 10) := by
      rintro ⟨_, h2, h3⟩
      exact h ⟨h2, h3⟩
    have hc3 : ¬ ((some "flat" : Option String) = some "arc" ∧ aj = none ∧
        arcs.length > 4) := by simp
    simp only [checkfor_and_submit_joint_job]
    rw [if_neg hc1, if_neg hc2, if_neg hc3]


/-- C4 witness: five accumulated arcs and no psfnight yet produce a
psfnight joint row; an empty flat run below threshold leaves everything
unchanged. -/
theorem checkfor_joint_thresholds_witness :
    (∃ st' pt' jp,
      checkfor_and_submit_joint_job st0 [] arcs5 [] [] none none (some "arc") true 6 =
        some (st', pt', some jp, none, 6 + 1) ∧
      jp.jobdesc = "psfnight" ∧ jp.intid = 6 ∧
      countJob "psfnight" pt' = countJob "psfnight" [] + 1) ∧
    checkfor_and_submit_joint_job st0 [] arcs5 [] [] none none (some "flat") true 6 =
      some (st0, [], none, none, 6) :=
  ⟨(checkfor_joint_thresholds st0 [] arcs5 [] [] none none true 6
      (by decide) (by decide)).1.1 ⟨rfl, by decide⟩,
   (checkfor_joint_thresholds st0 [] arcs5 [] [] none none true 6
      (by decide) (by decide)).2.2 (by decide)⟩

/-- The poststdstar fan-out appends one new row per input science job; the
i-th new row is a submitted poststdstar job with internal id `iid + i`
(`iid` being the id the joint row itself received), depending exactly on
the joint row, and carrying the obstype of one of the inputs. -/
theorem poststdstar_fanout_spec (prows : List PRow) (st : SubmitState)
    (pt : List PRow) (iid : ℤ) (jp : PRow) :
    ∃ fan : List PRow,
      (poststdstar_fanout st pt prows iid jp).2.1 = pt ++ fan ∧
      (poststdstar_fanout st pt prows iid jp).2.2 = iid + prows.length ∧
      fan.length = prows.length ∧
      (∀ i (hi : i < fan.length),
        (fan.get ⟨i, hi⟩).jobdesc = "poststdstar" ∧
        (fan.get ⟨i, hi⟩).int_dep_ids = some [jp.intid] ∧
        (fan.get ⟨i, hi⟩).intid = iid + i ∧
        (fan.get ⟨i, hi⟩).status = "SU" ∧
        (fan.get ⟨i, hi⟩).latest_dep_qid = some [jp.latest_qid]) ∧
      (∀ r ∈ fan, ∃ p ∈ prows, r.obstype = p.obstype) := by
  induction prows generalizing st pt iid with
  | nil =>
    refine ⟨[], by simp [poststdstar_fanout], by simp [poststdstar_fanout], rfl, ?_, by simp⟩
    intro i hi
    exact absurd hi (by simp)
  | cons row rest ih =>
    obtain ⟨fan', h1, h2, h3, h4, h5⟩ :=
      ih (create_and_submit st (assign_dependency
            { row with jobdesc := "poststdstar", intid := iid, all_qids := [] }
            (Dependency.single jp))).1
        (pt ++ [(create_and_submit st (assign_dependency
            { row with jobdesc := "poststdstar", intid := iid, all_qids := [] }
            (Dependency.single jp))).2])
        (iid + 1)
    refine ⟨(create_and_submit st (assign_dependency
        { row with jobdesc := "poststdstar", intid := iid, all_qids := [] }
        (Dependency.single jp))).2 :: fan', ?_, ?_, ?_, ?_, ?_⟩
    · show (poststdstar_fanout _ _ rest _ jp).2.1 = _
      rw [h1]
      simp
    · show (poststdstar_fanout _ _ rest _ jp).2.2 = _
      rw [h2]
      simp only [List.length_cons]
      push_cast
      ring
    · simpa using h3
    · intro i hi
      match i with
      | 0 =>
        refine ⟨rfl, rfl, ?_, rfl, rfl⟩
        simp only [Nat.cast_zero, add_zero]
        rfl
      | Nat.succ j =>
        have hj : j < fan'.length := by
          simpa [Nat.succ_lt_succ_iff] using hi
        obtain ⟨p1, p2, p3, p4, p5⟩ := h4 j hj
        refine ⟨p1, p2, ?_, p4, p5⟩
        rw [List.get_cons_succ, p3]
        push_cast
        ring
    · intro r hr
      rcases List.mem_cons.mp hr with hr | hr
      · refine ⟨row, by simp, ?_⟩
        rw [hr]
        rfl
      · obtain ⟨p, hp, hpo⟩ := h5 r hr
        exact ⟨p, by simp [hp], hpo⟩

/-- `joint_fit` with descriptor `stdstarfit` on a nonempty science run:
the joint row is submitted and appended, then one poststdstar row per
input is submitted and appended, each depending exactly on the joint row,
with internal ids counted up from the joint row's own id. -/
theorem joint_fit_stdstarfit_spec (st : SubmitState) (pt : List PRow)
    (first : PRow) (rest : List PRow) (iid : ℤ)
    (hexp : ∀ r ∈ first :: rest, r.expid ≠ []) :
    ∃ st' pt' jp fan,
      joint_fit st pt (first :: rest) iid (some "stdstarfit") = some (st', pt', some jp) ∧
      pt' = pt ++ [jp] ++ fan ∧
      jp.jobdesc = "stdstarfit" ∧ jp.intid = iid ∧ jp.status = "SU" ∧
      jp.obstype = first.obstype ∧
      countJob "stdstarfit" pt' =
        countJob "stdstarfit" pt + 1 + countJob "stdstarfit" fan ∧
      fan.length = (first :: rest).length ∧
      (∀ i (hi : i < fan.length),
        (fan.get ⟨i, hi⟩).jobdesc = "poststdstar" ∧
        (fan.get ⟨i, hi⟩).int_dep_ids = some [jp.intid] ∧
        (fan.get ⟨i, hi⟩).intid = iid + i ∧
        (fan.get ⟨i, hi⟩).status = "SU" ∧
        (fan.get ⟨i, hi⟩).latest_dep_qid = some [jp.latest_qid]) ∧
      (∀ r ∈ fan, ∃ p ∈ first :: rest, r.obstype = p.obstype) := by
  obtain ⟨es, hes⟩ := collectHeads_of_nonempty (first :: rest) hexp
  set jp0 : PRow := { first with
    intid := iid
    jobdesc := "stdstarfit"
    all_qids := []
    int_dep_ids := some ((first :: rest).map (fun r => r.intid))
    latest_dep_qid := some ((first :: rest).map (fun r => r.latest_qid))
    expid := es } with hjp0
  have hmk : make_joint_prow (first :: rest) "stdstarfit" iid = some jp0 := by
    simp only [make_joint_prow]
    rw [hes]
  obtain ⟨fan, hf1, _hf2, hf3, hf4, hf5⟩ :=
    poststdstar_fanout_spec (first :: rest) (create_and_submit st jp0 false).1
      (pt ++ [(create_and_submit st jp0 false).2]) iid (create_and_submit st jp0 false).2
  refine ⟨(poststdstar_fanout (create_and_submit st jp0 false).1
      (pt ++ [(create_and_submit st jp0 false).2]) (first :: rest) iid
      (create_and_submit st jp0 false).2).1,
    pt ++ [(create_and_submit st jp0 false).2] ++ fan,
    (create_and_submit st jp0 false).2, fan, ?_, rfl, rfl, rfl, rfl, rfl, ?_, hf3, hf4, hf5⟩
  · simp only [joint_fit, if_neg (by decide : ¬ ("stdstarfit" = "science")),
      if_neg (by decide : ¬ ("stdstarfit" = "arc")),
      if_neg (by decide : ¬ ("stdstarfit" = "flat")),
      if_neg (by decide : ¬ ("stdstarfit" ≠ "stdstarfit" ∧ "stdstarfit" ≠ "psfnight" ∧
        "stdstarfit" ≠ "nightlyflat")),
      if_pos (rfl : "stdstarfit" = "stdstarfit")]
    rw [hmk]
    show some ((poststdstar_fanout (create_and_submit st jp0).1
        (pt ++ [(create_and_submit st jp0).2]) (first :: rest) iid
        (create_and_submit st jp0).2).1,
      (poststdstar_fanout (create_and_submit st jp0).1
        (pt ++ [(create_and_submit st jp0).2]) (first :: rest) iid
        (create_and_submit st jp0).2).2.1,
      some (create_and_submit st jp0).2) = _
    rw [hf1]
  · rw [countJob_append, countJob_append]
    have hjd : ((create_and_submit st jp0 false).2).jobdesc = "stdstarfit" := rfl
    simp [countJob, hjd]

theorem countJob_eq_zero_of_ne (d : String) (l : List PRow)
    (h : ∀ r ∈ l, r.jobdesc ≠ d) : countJob d l = 0 := by
  induction l with
  | nil => rfl
  | cons a tl ih =>
    have ha : ¬ (a.jobdesc = d) := h a (by simp)
    simp only [countJob, List.filter_cons, decide_eq_true_eq]
    rw [if_neg (by simpa using ha)]
    exact ih (fun r hr => h r (by simp [hr]))

/-- C3 counterexample: (i) with zero accumulated prestdstar rows, a science
transition creates no stdstarfit joint job at all — the embedded
`checkfor_and_submit_joint_job` errors, mirroring the `prows[0]`
IndexError that `make_joint_prow` raises on an empty input in the source;
(ii) with one accumulated row, the fan-out poststdstar row's internal id
equals the joint row's internal id 6 — it is not fresh. -/
theorem checkfor_science_counterexample :
    checkfor_and_submit_joint_job st0 [] [] [] [] none none (some "science") true 6 = none ∧
    (∃ st' pt' aj fj iid,
      checkfor_and_submit_joint_job st0 [] [] [] [sciRow5] none none (some "science") true 6 =
        some (st', pt', aj, fj, iid) ∧
      pt'.map (fun r => r.intid) = [6, 6]) := by
  refine ⟨rfl, _, _, _, _, _, rfl, by decide⟩

/-- C3 (amended): on a science→anything transition for a non-dither tile
with at least one accumulated prestdstar row, exactly one stdstarfit joint
job over all accumulated rows is created, submitted and appended to the
table, and for each input science job one new poststdstar row depending
exactly on the just-created joint job is submitted and appended.  The
fan-out internal ids are consecutive starting at the joint job's own
internal id — so the first fan-out row reuses the joint job's id rather
than receiving a fresh one (the defect recorded for the acyclicity claim) —
and the psfnight/nightlyflat pointers pass through unchanged while the
returned internal id counter is the input plus one. -/
theorem checkfor_science_transition (st : SubmitState) (pt arcs flats : List PRow)
    (first : PRow) (rest : List PRow) (aj fj : Option PRow) (iid : ℤ)
    (hexp : ∀ r ∈ first :: rest, r.expid ≠ []) :
    ∃ st' pt' jp fan,
      checkfor_and_submit_joint_job st pt arcs flats (first :: rest) aj fj
          (some "science") true iid = some (st', pt', aj, fj, iid + 1) ∧
      pt' = pt ++ [jp] ++ fan ∧
      jp.jobdesc = "stdstarfit" ∧ jp.intid = iid ∧ jp.status = "SU" ∧
      countJob "stdstarfit" pt' = countJob "stdstarfit" pt + 1 ∧
      fan.length = (first :: rest).length ∧
      (∀ (i : ℕ) (hi : i < fan.length),
        (fan.get ⟨i, hi⟩).jobdesc = "poststdstar" ∧
        (fan.get ⟨i, hi⟩).int_dep_ids = some [jp.intid] ∧
        (fan.get ⟨i, hi⟩).intid = iid + i ∧
        (fan.get ⟨i, hi⟩).status = "SU") := by
  obtain ⟨stS, ptS, jpS, fanS, heq, hpt, hjd, hint, hstat, _hob, hcnt, hlen, hidx, _hobs⟩ :=
    joint_fit_stdstarfit_spec st pt first rest iid hexp
  have hmem : ∀ r ∈ fanS, r.jobdesc ≠ "stdstarfit" := by
    intro r hr
    obtain ⟨⟨i, hi⟩, hget⟩ := List.mem_iff_get.mp hr
    rw [← hget, (hidx i hi).1]
    decide
  refine ⟨stS, ptS, jpS, fanS, ?_, hpt, hjd, hint, hstat, ?_,
    hlen, fun i hi => ⟨(hidx i hi).1, (hidx i hi).2.1, (hidx i hi).2.2.1, (hidx i hi).2.2.2.1⟩⟩
  · simp only [checkfor_and_submit_joint_job]
    rw [if_pos ⟨trivial, trivial⟩]
    simp only [science_joint_fit]
    rw [heq]
  · rw [hcnt, countJob_eq_zero_of_ne "stdstarfit" fanS hmem]

/-- C3 witness: the transition away from a one-science run on tile 500. -/
theorem checkfor_science_transition_witness :
    ∃ st' pt' jp fan,
      checkfor_and_submit_joint_job st0 [] [] [] [sciRow5] none none
          (some "science") true 6 = some (st', pt', none, none, 6 + 1) ∧
      pt' = [] ++ [jp] ++ fan ∧
      jp.jobdesc = "stdstarfit" ∧ jp.intid = 6 ∧ jp.status = "SU" ∧
      countJob "stdstarfit" pt' = countJob "stdstarfit" [] + 1 ∧
      fan.length = ([sciRow5]).length ∧
      (∀ (i : ℕ) (hi : i < fan.length),
        (fan.get ⟨i, hi⟩).jobdesc = "poststdstar" ∧
        (fan.get ⟨i, hi⟩).int_dep_ids = some [jp.intid] ∧
        (fan.get ⟨i, hi⟩).intid = (6 : ℤ) + i ∧
        (fan.get ⟨i, hi⟩).status = "SU") :=
  checkfor_science_transition st0 [] [] [] sciRow5 [] none none 6 (by decide)

theorem update_from_queue_none (pt : List PRow) :
    update_from_queue (fun _ => none) pt = pt := by
  induction pt with
  | nil => rfl
  | cons r tl ih =>
    simp only [update_from_queue, List.map_cons] at ih ⊢
    rw [ih]
    cases hr : r.latest_qid <;> simp [refresh_row, hr]

/-- C2: for a processing table holding jobs A and B where B's dependency
ids are exactly A's internal id, both statuses in the resubmission set (an
empty queue snapshot leaves them in place during the refresh), the
reconciliation pass resubmits A before B — the submission trace records A's
new submission first — and afterwards B's `LATEST_DEP_QID` contains exactly
A's newly issued `LATEST_QID` (the fresh queue id handed to A). -/
theorem reconciliation_resubmits_dependency_first (A B : PRow) (st : SubmitState)
    (hAdep : A.int_dep_ids = none)
    (hBdep : B.int_dep_ids = some [A.intid])
    (hne : A.intid ≠ B.intid)
    (hA : A.status ∈ get_resubmission_states)
    (hB : B.status ∈ get_resubmission_states) :
    ∃ A' B' st' subs dstr,
      update_and_recurvsively_submit (fun _ => none) true st [A, B] 0
          get_resubmission_states = some ([A', B'], st', subs) ∧
      st'.events = st.events ++
        [Event.submit A.intid A.jobdesc "" st.nextQid,
         Event.submit B.intid B.jobdesc dstr (st.nextQid + 1)] ∧
      A'.latest_qid = some st.nextQid ∧
      B'.latest_dep_qid = some [A'.latest_qid] := by
  have hmapA : id_to_row_map [A, B] A.intid = some 0 := by
    simp only [id_to_row_map]
    have hr : List.range ([A, B] : List PRow).length = [0, 1] := rfl
    rw [hr]
    simp [List.filter, Ne.symm hne]
  have hrsfA : recursive_submit_failed (fun _ => none) true (id_to_row_map [A, B])
      ([A, B].length + 1) 0 [A, B] st 0 get_resubmission_states =
      some ([({ A with latest_dep_qid := none, latest_qid := some st.nextQid, all_qids := A.all_qids ++ [st.nextQid], status := "SU", submit_date := st.nextQid }), B],
        ({ nextQid := st.nextQid + 1, events := st.events ++ [Event.submit A.intid A.jobdesc "" st.nextQid] } : SubmitState), 1) := by
    simp only [recursive_submit_failed, List.get?_cons_zero, hAdep, List.set_cons_zero,
      if_true, submit_batch_script, submit_dep_str]
  have hsort : sortIdeps [A.intid] = [A.intid] := rfl
  have hrsfB : recursive_submit_failed (fun _ => none) true (id_to_row_map [A, B])
      ([A, B].length + 1) 1
      [({ A with latest_dep_qid := none, latest_qid := some st.nextQid, all_qids := A.all_qids ++ [st.nextQid], status := "SU", submit_date := st.nextQid }), B]
      ({ nextQid := st.nextQid + 1, events := st.events ++ [Event.submit A.intid A.jobdesc "" st.nextQid] } : SubmitState) 1 get_resubmission_states =
      some ([({ A with latest_dep_qid := none, latest_qid := some st.nextQid, all_qids := A.all_qids ++ [st.nextQid], status := "SU", submit_date := st.nextQid }),
        ({ B with latest_dep_qid := some [some st.nextQid], latest_qid := some (st.nextQid + 1), all_qids := B.all_qids ++ [st.nextQid + 1], status := "SU", submit_date := st.nextQid + 1 })],
        ({ nextQid := st.nextQid + 1 + 1, events := (st.events ++ [Event.submit A.intid A.jobdesc "" st.nextQid]) ++ [Event.submit B.intid B.jobdesc (submit_dep_str ({ B with latest_dep_qid := some [some st.nextQid] }) false) (st.nextQid + 1)] } : SubmitState), 2) := by
    simp only [recursive_submit_failed, List.get?_cons_succ, List.get?_cons_zero, hBdep,
      hsort, resubmit_deps, hmapA, List.set_cons_succ, List.set_cons_zero,
      if_true, submit_batch_script]
    simp +decide
    refine ⟨hBdep, ?_⟩
    rw [hBdep]
  refine ⟨({ A with latest_dep_qid := none, latest_qid := some st.nextQid, all_qids := A.all_qids ++ [st.nextQid], status := "SU", submit_date := st.nextQid }),
    ({ B with latest_dep_qid := some [some st.nextQid], latest_qid := some (st.nextQid + 1), all_qids := B.all_qids ++ [st.nextQid + 1], status := "SU", submit_date := st.nextQid + 1 }),
    ({ nextQid := st.nextQid + 1 + 1, events := (st.events ++ [Event.submit A.intid A.jobdesc "" st.nextQid]) ++ [Event.submit B.intid B.jobdesc (submit_dep_str ({ B with latest_dep_qid := some [some st.nextQid] }) false) (st.nextQid + 1)] } : SubmitState),
    2, submit_dep_str ({ B with latest_dep_qid := some [some st.nextQid] }) false,
    ?_, by simp, rfl, rfl⟩
  simp only [update_and_recurvsively_submit, update_from_queue_none]
  have hrange : List.range ([A, B] : List PRow).length = [0, 1] := rfl
  rw [hrange]
  simp only [uars_loop, List.get?_cons_zero]
  rw [if_pos hA]
  simp only [hrsfA, uars_loop, List.get?_cons_succ, List.get?_cons_zero]
  rw [if_pos hB]
  simp only [hrsfB, uars_loop]


/-- C2 witness: the failed pair (A = arc 1, B = flat 2 depending on A). -/
theorem reconciliation_resubmits_dependency_first_witness :
    ∃ A' B' st' subs dstr,
      update_and_recurvsively_submit (fun _ => none) true st0 [failedA, failedB] 0
          get_resubmission_states = some ([A', B'], st', subs) ∧
      st'.events = st0.events ++
        [Event.submit failedA.intid failedA.jobdesc "" st0.nextQid,
         Event.submit failedB.intid failedB.jobdesc dstr (st0.nextQid + 1)] ∧
      A'.latest_qid = some st0.nextQid ∧
      B'.latest_dep_qid = some [A'.latest_qid] :=
  reconciliation_resubmits_dependency_first failedA failedB st0
    (by decide) (by decide) (by decide) (by decide) (by decide)


/-- C10 counterexample: with an existing incomplete processing table, the
append flag set and the tolerate-incomplete flag unset, `submit_night`
refuses — but only after durably writing both the unprocessed-exposure
table and the queue-refreshed processing table, so state is mutated before
the refusal, contrary to the claim's no-mutation guarantee. -/
theorem submit_night_incomplete_refusal_writes_counterexample :
    (submit_night 20210101 ["science"] true true true false 0 (fun _ => none)
      [] [stuckRow] st0).1 = SNOutcome.refusedIncomplete ∧
    (submit_night 20210101 ["science"] true true true false 0 (fun _ => none)
      [] [stuckRow] st0).2.events = [Event.writeUnproc, Event.writeProc] ∧
    (submit_night 20210101 ["science"] true true true false 0 (fun _ => none)
      [] [stuckRow] st0).2.events ≠ [] :=
  ⟨rfl, rfl, by decide⟩

/-- C10 (amended): when a processing table for the night already exists and
the append flag is not set, `submit_night` refuses immediately with the
external state untouched — nothing is written.  When the table exists, the
append flag is set, it has jobs with incomplete status and the
tolerate-incomplete flag is not set, `submit_night` also refuses — but only
after writing the unprocessed-exposure table and the queue-refreshed
processing table to durable storage (at dry-run level 0), so the
no-mutation guarantee holds only for the first refusal. -/
theorem submit_night_refusal_mutation (night : ℤ) (pot : List String)
    (snap : ℤ → Option String) (etable : List ERow) (ptable0 : List PRow)
    (st : SubmitState) (ignore : Bool) (lvl : ℕ) :
    (submit_night night pot true true false ignore lvl snap etable ptable0 st =
      (SNOutcome.refusedExisting, st)) ∧
    (0 < ptable0.length →
      ∀ ps, parse_previous_tables (submit_night_prep pot etable).1 ptable0 night = some ps →
      any_jobs_not_complete ((update_from_queue snap ptable0).map (fun r => r.status)) = true →
      ∃ st', submit_night night pot true true true false 0 snap etable ptable0 st =
          (SNOutcome.refusedIncomplete, st') ∧
        st'.events = st.events ++ [Event.writeUnproc, Event.writeProc]) := by
  constructor
  · rfl
  · intro hlen ps hps hany
    refine ⟨{ st with events := (st.events ++ [Event.writeUnproc]) ++ [Event.writeProc] }, ?_, by simp⟩
    simp only [submit_night]
    rw [if_neg (by simp), if_neg (by simp), if_pos (by decide : (0 : ℕ) < 3)]
    simp only [hps]
    rw [if_pos hlen, if_pos ⟨hany, by simp⟩]
    rfl

/-- C10 witness: an existing one-row incomplete table; refusal without
append writes nothing, refusal on incompleteness happens after the two
table writes. -/
theorem submit_night_refusal_mutation_witness :
    (submit_night 20210101 ["science"] true true false false 0 (fun _ => none)
      [] [stuckRow] st0 = (SNOutcome.refusedExisting, st0)) ∧
    ∃ st', submit_night 20210101 ["science"] true true true false 0 (fun _ => none)
        [] [stuckRow] st0 = (SNOutcome.refusedIncomplete, st') ∧
      st'.events = st0.events ++ [Event.writeUnproc, Event.writeProc] :=
  ⟨(submit_night_refusal_mutation 20210101 ["science"] (fun _ => none)
      [] [stuckRow] st0 false 0).1,
   (submit_night_refusal_mutation 20210101 ["science"] (fun _ => none)
      [] [stuckRow] st0 false 0).2 (by decide) _ rfl (by decide)⟩

theorem darkCount_append (a b : List PRow) :
    darkCount (a ++ b) = darkCount a + darkCount b := by
  simp [darkCount, List.filter_append]

theorem darkCount_map_of_preserve (f : PRow → PRow) (pt : List PRow)
    (h : ∀ r, (f r).obstype = r.obstype) :
    darkCount (pt.map f) = darkCount pt := by
  induction pt with
  | nil => rfl
  | cons a tl ih =>
    simp only [List.map_cons, darkCount, List.filter_cons, isDarkRow] at ih ⊢
    by_cases hd : a.obstype = "dark"
    · simp [h a, hd, ih]
    · simp [h a, hd, ih]

theorem darkCount_eq_zero_of_nondark (l : List PRow)
    (h : ∀ r ∈ l, r.obstype ≠ "dark") : darkCount l = 0 := by
  induction l with
  | nil => rfl
  | cons a tl ih =>
    have ha := h a (by simp)
    simp only [darkCount, List.filter_cons, isDarkRow]
    rw [if_neg (by simpa using ha)]
    exact ih (fun r hr => h r (by simp [hr]))

theorem mem_map_of_preserve (f : PRow → PRow) (pt : List PRow)
    (h : ∀ r, (f r).obstype = r.obstype ∧ (f r).expid = r.expid) :
    ∀ r' ∈ pt.map f, ∃ r ∈ pt, r'.obstype = r.obstype ∧ r'.expid = r.expid := by
  intro r' hr'
  obtain ⟨r, hr, hfr⟩ := List.mem_map.mp hr'
  exact ⟨r, hr, by rw [← hfr, (h r).1], by rw [← hfr, (h r).2]⟩

theorem darkCount_set_calibrator_flag (prows pt : List PRow) :
    darkCount (set_calibrator_flag prows pt) = darkCount pt := by
  induction prows generalizing pt with
  | nil => rfl
  | cons p tl ih =>
    show darkCount (set_calibrator_flag tl
      (pt.map (fun r => if r.intid = p.intid then { r with calibrator := 1 } else r))) = _
    rw [ih, darkCount_map_of_preserve]
    intro r
    by_cases h : r.intid = p.intid <;> simp [h]

theorem mem_set_calibrator_flag (prows pt : List PRow) :
    ∀ r' ∈ set_calibrator_flag prows pt,
      ∃ r ∈ pt, r'.obstype = r.obstype ∧ r'.expid = r.expid := by
  induction prows generalizing pt with
  | nil => exact fun r' hr' => ⟨r', hr', rfl, rfl⟩
  | cons p tl ih =>
    intro r' hr'
    have hr2 : r' ∈ set_calibrator_flag tl
        (pt.map (fun r => if r.intid = p.intid then { r with calibrator := 1 } else r)) := hr'
    obtain ⟨r1, hr1, ho1, he1⟩ := ih
      (pt.map (fun r => if r.intid = p.intid then { r with calibrator := 1 } else r)) r' hr2
    obtain ⟨r0, hr0, ho0, he0⟩ := mem_map_of_preserve
      (fun r => if r.intid = p.intid then { r with calibrator := 1 } else r) pt
      (fun r => by by_cases h : r.intid = p.intid <;> simp [h]) r1 hr1
    exact ⟨r0, hr0, ho1.trans ho0, he1.trans he0⟩

theorem refresh_row_preserve (snap : ℤ → Option String) (r : PRow) :
    (refresh_row snap r).obstype = r.obstype ∧ (refresh_row snap r).expid = r.expid := by
  unfold refresh_row
  split
  · exact ⟨rfl, rfl⟩
  · split
    · exact ⟨rfl, rfl⟩
    · exact ⟨rfl, rfl⟩

theorem update_from_queue_preserve (snap : ℤ → Option String) (pt : List PRow) :
    darkCount (update_from_queue snap pt) = darkCount pt ∧
    (∀ r' ∈ update_from_queue snap pt,
      ∃ r ∈ pt, r'.obstype = r.obstype ∧ r'.expid = r.expid) :=
  ⟨darkCount_map_of_preserve (refresh_row snap) pt
      (fun r => (refresh_row_preserve snap r).1),
   mem_map_of_preserve (refresh_row snap) pt (refresh_row_preserve snap)⟩

/-- `checkfor_and_submit_joint_job` never adds a dark job: every joint or
fan-out row it appends carries the obstype of an accumulated arc, flat or
science job, so the number of dark rows is unchanged and every dark row of
the output traces back to a dark row of the input table with the same
exposure ids. -/
theorem checkfor_dark (st : SubmitState) (pt arcs flats scis : List PRow)
    (aj fj : Option PRow) (lt : Option String) (lnd : Bool) (iid : ℤ)
    (hand : ∀ r ∈ arcs, r.obstype ≠ "dark" ∧ r.expid ≠ [])
    (hfnd : ∀ r ∈ flats, r.obstype ≠ "dark" ∧ r.expid ≠ [])
    (hsnd : ∀ r ∈ scis, r.obstype ≠ "dark" ∧ r.expid ≠ [])
    (st' : SubmitState) (pt' : List PRow) (aj' fj' : Option PRow) (iid' : ℤ)
    (h : checkfor_and_submit_joint_job st pt arcs flats scis aj fj lt lnd iid =
      some (st', pt', aj', fj', iid')) :
    darkCount pt' = darkCount pt ∧
    (∀ r' ∈ pt', r'.obstype = "dark" →
      ∃ r ∈ pt, r.obstype = "dark" ∧ r'.expid = r.expid) := by
  simp only [checkfor_and_submit_joint_job] at h
  split at h
  · -- science branch
    cases hscis : scis with
    | nil =>
      rw [hscis] at h
      simp +decide [science_joint_fit, joint_fit, make_joint_prow] at h
    | cons first rest =>
      rw [hscis] at h
      rw [hscis] at hsnd
      obtain ⟨stS, ptS, jpS, fanS, heq, hpt, _hjd, _hint, _hstat, hobs, _hcnt, _hlen,
        _hidx, hfanobs⟩ :=
        joint_fit_stdstarfit_spec st pt first rest iid (fun r hr => (hsnd r hr).2)
      have hsjf : science_joint_fit st pt (first :: rest) iid =
          some (stS, ptS, some jpS) := heq
      rw [hsjf] at h
      simp only [Option.some.injEq, Prod.mk.injEq] at h
      obtain ⟨_h1, h2, _⟩ := h
      subst h2
      subst hpt
      have hjpnd : jpS.obstype ≠ "dark" := by
        rw [hobs]
        exact (hsnd first (by simp)).1
      have hfannd : ∀ r ∈ fanS, r.obstype ≠ "dark" := by
        intro r hr
        obtain ⟨p, hp, hpo⟩ := hfanobs r hr
        rw [hpo]
        exact (hsnd p hp).1
      constructor
      · rw [darkCount_append, darkCount_append,
          darkCount_eq_zero_of_nondark [jpS] (by simpa using hjpnd),
          darkCount_eq_zero_of_nondark fanS hfannd]
        ring
      · intro r' hr' hd
        rcases List.mem_append.mp hr' with hr2 | hr2
        · rcases List.mem_append.mp hr2 with hr3 | hr3
          · exact ⟨r', hr3, hd, rfl⟩
          · exact absurd hd (by simpa [List.mem_singleton.mp hr3] using hjpnd)
        · exact absurd hd (hfannd r' hr2)
  · split at h
    · -- flat branch
      next hc =>
      have hfne : flats ≠ [] := by
        intro hnil
        rw [hnil] at hc
        simp at hc
      obtain ⟨first, rest, hfr⟩ := List.exists_cons_of_ne_nil hfne
      rw [hfr] at h
      rw [hfr] at hfnd
      obtain ⟨stS, ptS, jpS, heq, hpt, _hjd, _hint, _hstat, hobs, _hcnt⟩ :=
        joint_fit_calib_spec st pt first rest iid "nightlyflat" (Or.inr rfl)
          (fun r hr => (hfnd r hr).2)
      have hsjf : flat_joint_fit st pt (first :: rest) iid =
          some (stS, ptS, some jpS) := heq
      rw [hsjf] at h
      simp only [Option.some.injEq, Prod.mk.injEq] at h
      obtain ⟨_h1, h2, _⟩ := h
      subst h2
      subst hpt
      have hjpnd : jpS.obstype ≠ "dark" := by
        rw [hobs]
        exact (hfnd first (by simp)).1
      constructor
      · rw [darkCount_set_calibrator_flag, darkCount_append,
          darkCount_eq_zero_of_nondark [jpS] (by simpa using hjpnd)]
        ring
      · intro r' hr' hd
        obtain ⟨r, hr, ho, he⟩ := mem_set_calibrator_flag (first :: rest) (pt ++ [jpS]) r' hr'
        rcases List.mem_append.mp hr with hr2 | hr2
        · exact ⟨r, hr2, by rw [← ho]; exact hd, he⟩
        · rw [List.mem_singleton.mp hr2] at ho
          rw [ho] at hd
          exact absurd hd hjpnd
    · split at h
      · -- arc branch
        next hc =>
        have hane : arcs ≠ [] := by
          intro hnil
          rw [hnil] at hc
          simp at hc
        obtain ⟨first, rest, hfr⟩ := List.exists_cons_of_ne_nil hane
        rw [hfr] at h
        rw [hfr] at hand
        obtain ⟨stS, ptS, jpS, heq, hpt, _hjd, _hint, _hstat, hobs, _hcnt⟩ :=
          joint_fit_calib_spec st pt first rest iid "psfnight" (Or.inl rfl)
            (fun r hr => (hand r hr).2)
        have hsjf : arc_joint_fit st pt (first :: rest) iid =
            some (stS, ptS, some jpS) := heq
        rw [hsjf] at h
        simp only [Option.some.injEq, Prod.mk.injEq] at h
        obtain ⟨_h1, h2, _⟩ := h
        subst h2
        subst hpt
        have hjpnd : jpS.obstype ≠ "dark" := by
          rw [hobs]
          exact (hand first (by simp)).1
        constructor
        · rw [darkCount_set_calibrator_flag, darkCount_append,
            darkCount_eq_zero_of_nondark [jpS] (by simpa using hjpnd)]
          ring
        · intro r' hr' hd
          obtain ⟨r, hr, ho, he⟩ := mem_set_calibrator_flag (first :: rest) (pt ++ [jpS]) r' hr'
          rcases List.mem_append.mp hr with hr2 | hr2
          · exact ⟨r, hr2, by rw [← ho]; exact hd, he⟩
          · rw [List.mem_singleton.mp hr2] at ho
            rw [ho] at hd
            exact absurd hd hjpnd
      · -- no joint fit
        simp only [Option.some.injEq, Prod.mk.injEq] at h
        obtain ⟨_h1, h2, _⟩ := h
        subst h2
        exact ⟨rfl, fun r' hr' hd => ⟨r', hr', hd, rfl⟩⟩

theorem define_and_assign_dependency_preserve (p : PRow) (aj fj : Option PRow) :
    (define_and_assign_dependency p aj fj).obstype = p.obstype ∧
    (define_and_assign_dependency p aj fj).expid = p.expid := by
  unfold define_and_assign_dependency
  dsimp only
  split
  · cases fj <;> simp [optDep, assign_dependency]
  · split
    · cases aj <;> simp [optDep, assign_dependency]
    · simp [assign_dependency]

theorem mem_ite_append {C : Prop} [Decidable C] (l : List PRow) (x : PRow)
    (P : PRow → Prop) (hl : ∀ r ∈ l, P r) (hx : C → P x) :
    ∀ r ∈ (if C then l ++ [x] else l), P r := by
  intro r hr
  by_cases hc : C
  · rw [if_pos hc] at hr
    rcases List.mem_append.mp hr with h | h
    · exact hl r h
    · rw [List.mem_singleton.mp h]
      exact hx hc
  · rw [if_neg hc] at hr
    exact hl r hr


theorem loop_submit_row_props (st : SubmitState) (e : ERow) (iid : ℤ)
    (aj fj : Option PRow) :
    ((loop_submit_row st e iid aj fj).2).obstype = e.obstype ∧
    ((loop_submit_row st e iid aj fj).2).expid = [e.expid] :=
  ⟨(define_and_assign_dependency_preserve
      { erow_to_prow e with intid := iid, jobdesc := (erow_to_prow e).obstype } aj fj).1,
   (define_and_assign_dependency_preserve
      { erow_to_prow e with intid := iid, jobdesc := (erow_to_prow e).obstype } aj fj).2⟩

theorem loop_final_row_preserve (ct : String) (p : PRow) :
    (loop_final_row ct p).obstype = p.obstype ∧ (loop_final_row ct p).expid = p.expid
      ∧ (loop_final_row ct p).laststep = p.laststep := by
  unfold loop_final_row
  split
  · exact ⟨rfl, rfl, rfl⟩
  · exact ⟨rfl, rfl, rfl⟩

theorem darkCount_singleton_le (r : PRow) : darkCount [r] ≤ 1 := by
  by_cases hd : isDarkRow r = true <;> simp [darkCount, List.filter_cons, hd]

theorem submit_night_loop_dark (lvl : ℕ) (eids : List ℤ) (dexp : ℤ) :
    ∀ (es : List ERow) (ii : ℕ) (ls : LoopState),
      (∀ e ∈ es, e.obstype = "dark" → e.expid = dexp) →
      DarkInvP dexp ls →
      ∀ ls', submit_night_loop lvl eids es ii ls = some ls' →
        DarkInvP dexp ls' := by
  intro es
  induction es with
  | nil =>
    intro ii ls _ hinv ls' h
    simp only [submit_night_loop, Option.some.injEq] at h
    rw [← h]
    exact hinv
  | cons e rest ih =>
    intro ii ls hes hinv ls' h
    simp only [submit_night_loop] at h
    split at h
    · exact ih (ii + 1) ls (fun x hx hd => hes x (by simp [hx]) hd) hinv ls' h
    · split at h
      · exact ih (ii + 1) ls (fun x hx hd => hes x (by simp [hx]) hd) hinv ls' h
      · next hnskip =>
        split at h
        · exact absurd h (by simp)
        · next st1 pt1 aj1 fj1 iid1 heq =>
          have hjoint : darkCount pt1 = darkCount ls.ptable ∧
              (∀ r' ∈ pt1, r'.obstype = "dark" →
                ∃ r ∈ ls.ptable, r.obstype = "dark" ∧ r'.expid = r.expid) := by
            by_cases hc : ls.lasttype ≠ none ∧
                (some (get_type_and_tile e).1 ≠ ls.lasttype ∨
                 some (get_type_and_tile e).2 ≠ ls.lasttile)
            · rw [if_pos hc] at heq
              exact checkfor_dark ls.st ls.ptable ls.arcs ls.flats ls.sciences
                ls.arcjob ls.flatjob ls.lasttype ls.last_not_dither ls.internal_id
                hinv.arcsOk hinv.flatsOk hinv.scisOk st1 pt1 aj1 fj1 iid1 heq
            · rw [if_neg hc] at heq
              simp only [Option.some.injEq, Prod.mk.injEq] at heq
              obtain ⟨-, h2, -⟩ := heq
              rw [← h2]
              exact ⟨rfl, fun r' hr' hd => ⟨r', hr', hd, rfl⟩⟩
          refine ih (ii + 1) _ (fun x hx hd => hes x (by simp [hx]) hd) ?_ ls' h
          have hR := loop_submit_row_props st1 e iid1 aj1 fj1
          have hF := loop_final_row_preserve (get_type_and_tile e).1
            (loop_submit_row st1 e iid1 aj1 fj1).2
          have h4o : (loop_final_row (get_type_and_tile e).1
              (loop_submit_row st1 e iid1 aj1 fj1).2).obstype = e.obstype :=
            hF.1.trans hR.1
          have h4e : (loop_final_row (get_type_and_tile e).1
              (loop_submit_row st1 e iid1 aj1 fj1).2).expid = [e.expid] :=
            hF.2.1.trans hR.2
          constructor
          · dsimp only
            refine mem_ite_append _ _ _ hinv.arcsOk (fun hc => ⟨?_, ?_⟩)
            · rw [h4o]
              intro hde
              have hc1 : strLower e.obstype = "arc" := hc.1
              rw [hde] at hc1
              exact absurd hc1 (by decide)
            · rw [h4e]
              simp
          · dsimp only
            refine mem_ite_append _ _ _ hinv.flatsOk (fun hc => ⟨?_, ?_⟩)
            · rw [h4o]
              intro hde
              have hc1 : strLower e.obstype = "flat" := hc.1
              rw [hde] at hc1
              exact absurd hc1 (by decide)
            · rw [h4e]
              simp
          · dsimp only
            refine mem_ite_append _ _ _ hinv.scisOk (fun hc => ⟨?_, ?_⟩)
            · rw [h4o]
              intro hde
              have hc1 : strLower e.obstype = "science" := hc.1
              rw [hde] at hc1
              exact absurd hc1 (by decide)
            · rw [h4e]
              simp
          · dsimp only
            intro r hr hd
            rcases List.mem_append.mp hr with h1 | h1
            · obtain ⟨r0, hr0, hd0, he0⟩ := hjoint.2 r h1 hd
              rw [he0]
              exact hinv.darkExp r0 hr0 hd0
            · rw [List.mem_singleton.mp h1] at hd ⊢
              rw [h4e]
              have hde : e.obstype = "dark" := by
                rw [← h4o]
                exact hd
              rw [hes e (by simp) hde]
          · dsimp only
            rw [darkCount_append, hjoint.1]
            by_cases hdk : e.obstype = "dark"
            · have hdjn : ls.darkjob = none := by
                by_cases hdj : ls.darkjob = none
                · exact hdj
                · exact absurd ⟨hdk, hdj⟩ hnskip
              rw [hinv.noneZero hdjn]
              have hle := darkCount_singleton_le
                (loop_final_row (get_type_and_tile e).1 (loop_submit_row st1 e iid1 aj1 fj1).2)
              omega
            · rw [darkCount_eq_zero_of_nondark
                [loop_final_row (get_type_and_tile e).1 (loop_submit_row st1 e iid1 aj1 fj1).2]
                (by
                  intro r hr
                  rw [List.mem_singleton.mp hr, h4o]
                  exact hdk)]
              have := hinv.countLe
              omega
          · dsimp only
            intro hdj'
            by_cases hct : (get_type_and_tile e).1 = "dark"
            · rw [if_pos hct] at hdj'
              exact absurd hdj' (by simp)
            · rw [if_neg hct] at hdj'
              have hnd : e.obstype ≠ "dark" := by
                intro hde
                apply hct
                show strLower e.obstype = "dark"
                rw [hde]
                decide
              rw [darkCount_append, hjoint.1, hinv.noneZero hdj',
                darkCount_eq_zero_of_nondark
                  [loop_final_row (get_type_and_tile e).1 (loop_submit_row st1 e iid1 aj1 fj1).2]
                  (by
                    intro r hr
                    rw [List.mem_singleton.mp hr, h4o]
                    exact hnd)]

theorem filter_dark_of_nondark (l : List ERow) (q : ERow → Bool) :
    ((l.filter (fun e => ! isDarkE e)).filter q).filter isDarkE = [] := by
  rw [List.filter_eq_nil_iff]
  intro a ha
  have h1 : a ∈ l.filter (fun e => ! isDarkE e) := List.mem_of_mem_filter ha
  have h2 : (! isDarkE a) = true := (List.mem_filter.mp h1).2
  simp only [Bool.not_eq_true'] at h2
  simp [h2]

/-- The exposure-table organisation of `submit_night` keeps exactly the
first good dark in the processed stream; the second good dark (and any
later ones) land in the unprocessed table. -/
theorem submit_night_prep_darks (pot : List String) (etable : List ERow)
    (d1 d2 : ERow) (drest : List ERow)
    (hdarks : (etable.filter (good_erow pot)).filter isDarkE = d1 :: d2 :: drest) :
    (submit_night_prep pot etable).1.filter isDarkE = [d1] ∧
    d2 ∈ (submit_night_prep pot etable).2 := by
  have hd1 : isDarkE d1 = true := by
    have hmem : d1 ∈ (etable.filter (good_erow pot)).filter isDarkE := by
      rw [hdarks]
      simp
    exact List.of_mem_filter hmem
  have hd1o : d1.obstype = "dark" := by simpa [isDarkE] using hd1
  have hd1s : isSciE d1 = false := by simp [isSciE, hd1o]
  unfold submit_night_prep
  dsimp only
  rw [hdarks]
  dsimp only
  constructor
  · rw [List.filter_append, List.filter_cons, List.filter_cons]
    rw [if_pos (by simp [hd1s]), if_neg (by simp [hd1s])]
    rw [List.filter_cons, if_pos (by simp [hd1])]
    rw [filter_dark_of_nondark, filter_dark_of_nondark]
    rfl
  · have hmem : d2 ∈ etable.filter (fun e => ! good_erow pot e) ++ (d2 :: drest) := by
      simp
    exact (List.Perm.mem_iff (List.perm_insertionSort _ _)).mpr hmem

/-- C9: for a night whose good exposure stream contains two dark
exposures, the table organisation keeps only the first dark in the
processed stream and moves the second dark to the unprocessed-exposure
table, and any completed fresh run (no prior processing table) produces at
most one dark job, every dark job processes the first dark's exposure, and
returns that unprocessed table — the second dark is skipped without
creating or submitting a job and without aborting the night. -/
theorem submit_night_duplicate_dark (night : ℤ) (pot : List String)
    (append ignore : Bool) (lvl : ℕ) (snap : ℤ → Option String)
    (etable : List ERow) (st : SubmitState)
    (d1 d2 : ERow) (drest : List ERow)
    (hdarks : (etable.filter (good_erow pot)).filter isDarkE = d1 :: d2 :: drest) :
    (submit_night_prep pot etable).1.filter isDarkE = [d1] ∧
    d2 ∈ (submit_night_prep pot etable).2 ∧
    ∀ pt' unp st',
      submit_night night pot true false append ignore lvl snap etable [] st =
        (SNOutcome.completed pt' unp, st') →
      darkCount pt' ≤ 1 ∧
      (∀ r ∈ pt', r.obstype = "dark" → r.expid = [d1.expid]) ∧
      unp = (submit_night_prep pot etable).2 := by
  obtain ⟨hkeep, hunp⟩ := submit_night_prep_darks pot etable d1 d2 drest hdarks
  refine ⟨hkeep, hunp, ?_⟩
  intro pt' unp st' hrun
  have hes : ∀ e ∈ (submit_night_prep pot etable).1,
      e.obstype = "dark" → e.expid = d1.expid := by
    intro e he hd
    have hde : isDarkE e = true := by simp [isDarkE, hd]
    have hm : e ∈ ((submit_night_prep pot etable).1).filter isDarkE :=
      List.mem_filter.mpr ⟨he, hde⟩
    rw [hkeep] at hm
    rw [List.mem_singleton.mp hm]
  have hred : submit_night night pot true false append ignore lvl snap etable [] st =
      submit_night_run lvl snap
        { arcs := [], flats := [], sciences := [], arcjob := none, flatjob := none
          curtype := none, lasttype := none, curtile := none, lasttile := none
          internal_id := night_to_starting_iid night, last_not_dither := true }
        [] [] (submit_night_prep pot etable).1 (submit_night_prep pot etable).2
        (if lvl < 3 then { st with events := st.events ++ [Event.writeUnproc] }
         else st) := rfl
  rw [hred] at hrun
  simp only [submit_night_run] at hrun
  split at hrun
  · exact absurd hrun (by simp)
  · next ls hloop =>
    have hinv0 : DarkInvP d1.expid
        { st := (if lvl < 3 then { st with events := st.events ++ [Event.writeUnproc] }
                 else st)
          ptable := [], arcs := [], flats := [], sciences := [], darkjob := none
          arcjob := none, flatjob := none, lasttype := none, lasttile := none
          internal_id := night_to_starting_iid night, last_not_dither := true
          tableng := none } :=
      { arcsOk := fun r hr => absurd hr (List.not_mem_nil r)
        flatsOk := fun r hr => absurd hr (List.not_mem_nil r)
        scisOk := fun r hr => absurd hr (List.not_mem_nil r)
        darkExp := fun r hr => absurd hr (List.not_mem_nil r)
        countLe := by simp [darkCount]
        noneZero := fun _ => rfl }
    have hinv : DarkInvP d1.expid ls :=
      submit_night_loop_dark lvl [] d1.expid (submit_night_prep pot etable).1 0 _
        hes hinv0 ls hloop
    split at hrun
    · exact absurd hrun (by simp)
    · next n htn =>
      split at hrun
      · split at hrun
        · exact absurd hrun (by simp)
        · next st2 pt2 aj2 fj2 iid2 heqC =>
          have hcf := checkfor_dark ls.st ls.ptable ls.arcs ls.flats ls.sciences
            ls.arcjob ls.flatjob ls.lasttype ls.last_not_dither ls.internal_id
            hinv.arcsOk hinv.flatsOk hinv.scisOk st2 pt2 aj2 fj2 iid2 heqC
          have hup := update_from_queue_preserve snap pt2
          simp only [Prod.mk.injEq, SNOutcome.completed.injEq] at hrun
          obtain ⟨⟨hpt, hunpEq⟩, -⟩ := hrun
          refine ⟨?_, ?_, hunpEq.symm⟩
          · rw [← hpt, hup.1, hcf.1]
            exact hinv.countLe
          · intro r hr hd
            rw [← hpt] at hr
            obtain ⟨q, hq, hobs, hexp⟩ := hup.2 r hr
            obtain ⟨p, hp, hpd, hpe⟩ := hcf.2 q hq (hobs.symm.trans hd)
            rw [hexp, hpe]
            exact hinv.darkExp p hp hpd
      · exact absurd hrun (by simp)

/-- Concrete duplicate-dark instance: a night whose good exposure stream is
two dark exposures; the organisation keeps only the first, the second lands
in the unprocessed table, the completed-run conclusions hold, and the run
does complete rather than abort. -/
theorem submit_night_duplicate_dark_witness :
    (([darkE1, darkE2].filter (good_erow dPot)).filter isDarkE =
      darkE1 :: darkE2 :: []) ∧
    ((submit_night_prep dPot [darkE1, darkE2]).1.filter isDarkE = [darkE1] ∧
     darkE2 ∈ (submit_night_prep dPot [darkE1, darkE2]).2 ∧
     ∀ pt' unp st',
       submit_night 20210101 dPot true false false false 0 (fun _ => none)
         [darkE1, darkE2] [] st0 = (SNOutcome.completed pt' unp, st') →
       darkCount pt' ≤ 1 ∧
       (∀ r ∈ pt', r.obstype = "dark" → r.expid = [darkE1.expid]) ∧
       unp = (submit_night_prep dPot [darkE1, darkE2]).2) ∧
    snCompleted (submit_night 20210101 dPot true false false false 0
        (fun _ => none) [darkE1, darkE2] [] st0).1 = true :=
  ⟨by decide,
   submit_night_duplicate_dark 20210101 dPot false false 0 (fun _ => none)
     [darkE1, darkE2] st0 darkE1 darkE2 [] (by decide),
   by decide⟩
